import Mathlib

/-! Formal model of the spatial support-correlation engine found in the
`Armadura de Suspensão - Vigas` part of the ConcretoArmado repository
(`relger.py` and `nodes_vigas_tqs.py`).  Python floats are modelled as real
numbers, Python `None` as `Option`, and Python dicts as association lists
with insertion-order update semantics.  Definitions keep the source's
(Portuguese) names wherever Lean allows. -/

namespace ConcretoArmado

/-- Euclidean distance `((x2-x1)**2 + (y2-y1)**2)**0.5`, written inline
throughout `relger.py` and `nodes_vigas_tqs.py`. -/
noncomputable def dist2d (p q : ℝ × ℝ) : ℝ :=
  Real.sqrt ((q.1 - p.1) ^ 2 + (q.2 - p.2) ^ 2)

/-- Helper for `xi_nos`: cumulative arc length starting from node `c`
with accumulated value `acc` (the loop at `relger.py` lines 257-261). -/
noncomputable def xi_nos_go (c : ℝ × ℝ) (acc : ℝ) : List (ℝ × ℝ) → List ℝ
  | [] => [acc]
  | d :: rest => acc :: xi_nos_go d (acc + dist2d c d) rest

/-- Cumulative arc length (`Xi`) of each node of a beam polyline
(`xi_nos`, `relger.py` lines 255-261): the list starts at `0.0` and each
subsequent entry adds the Euclidean distance between consecutive nodes. -/
noncomputable def xi_nos : List (ℝ × ℝ) → List ℝ
  | [] => [0]
  | c :: rest => xi_nos_go c 0 rest

/-- Raw scalar projection of point `p` onto the segment `s`-`e`
(`proj_escalar`, `relger.py` line 298), before clamping. -/
noncomputable def proj_escalar (p s e : ℝ × ℝ) : ℝ :=
  ((p.1 - s.1) * (e.1 - s.1) + (p.2 - s.2) * (e.2 - s.2)) / dist2d s e ^ 2

/-- Scalar projection clamped to `[0, 1]` (`relger.py` line 301). -/
noncomputable def proj_clamp (p s e : ℝ × ℝ) : ℝ :=
  max 0 (min 1 (proj_escalar p s e))

/-- Point of the segment closest to `p` (`xproj`, `yproj`,
`relger.py` lines 304-305). -/
noncomputable def ponto_proj (p s e : ℝ × ℝ) : ℝ × ℝ :=
  (s.1 + proj_clamp p s e * (e.1 - s.1), s.2 + proj_clamp p s e * (e.2 - s.2))

/-- Perpendicular distance from `p` to its clamped projection on the
segment `s`-`e` (`dist_perp`, `relger.py` line 308). -/
noncomputable def dist_perp (p s e : ℝ × ℝ) : ℝ :=
  dist2d p (ponto_proj p s e)

/-- Update of the running best (smallest perpendicular distance) segment
(`relger.py` lines 311-315): a segment replaces the current best only if
its distance is strictly smaller. -/
noncomputable def atualiza_melhor (d xi : ℝ) : Option (ℝ × ℝ) → Option (ℝ × ℝ)
  | none => some (d, xi)
  | some (bd, bxi) => if d < bd then some (d, xi) else some (bd, bxi)

/-- The segment loop of `calcular_xi_acumulado_apoios`
(`relger.py` lines 280-315), walking the polyline from node `prev` through
`rest` with accumulated arc length `xiBase`.  Segments shorter than `0.01`
are skipped for projection but still contribute their length to the
accumulated arc length; the state holds `(menor_dist_ao_segmento,
melhor_xi)`. -/
noncomputable def melhor_xi_aux (p : ℝ × ℝ) :
    (ℝ × ℝ) → List (ℝ × ℝ) → ℝ → Option (ℝ × ℝ) → Option (ℝ × ℝ)
  | _, [], _, best => best
  | prev, c :: rest, xiBase, best =>
      if dist2d prev c < 0.01 then
        melhor_xi_aux p c rest (xiBase + dist2d prev c) best
      else
        melhor_xi_aux p c rest (xiBase + dist2d prev c)
          (atualiza_melhor (dist_perp p prev c)
            (xiBase + proj_clamp p prev c * dist2d prev c) best)

/-- Best (smallest perpendicular distance, earliest on ties) segment
projection of a point on a beam polyline; returns
`(menor_dist_ao_segmento, melhor_xi)` or `none` when no candidate segment
exists (`relger.py` lines 276-315). -/
noncomputable def melhor_xi (coords : List (ℝ × ℝ)) (p : ℝ × ℝ) :
    Option (ℝ × ℝ) :=
  match coords with
  | [] => none
  | c :: rest => melhor_xi_aux p c rest 0 none

/-- Support candidate as stored in `mapeamento_apoios`
(`{'viga_apoiada': nome, 'x': x, 'y': y}`, `relger.py` lines 495-499). -/
structure Apoio where
  viga_apoiada : String
  x : Option ℝ
  y : Option ℝ

/-- Support candidate annotated with its accumulated arc-length position
(the `apoio_copia` with the added `xi_acumulado` field,
`relger.py` lines 317-319). -/
structure ApoioXi where
  apoio : Apoio
  xi_acumulado : Option ℝ

/-- The per-support body of `calcular_xi_acumulado_apoios`
(`relger.py` lines 266-319): a support without coordinates gets
`xi_acumulado = None`; otherwise the best segment's `Xi` is taken,
defaulting to `0.0` when no segment produced a projection. -/
noncomputable def calc_apoio_xi (coords : List (ℝ × ℝ)) (a : Apoio) : ApoioXi :=
  match a.x, a.y with
  | some xa, some ya =>
      { apoio := a
        xi_acumulado := some (((melhor_xi coords (xa, ya)).map Prod.snd).getD 0) }
  | some _, none => { apoio := a, xi_acumulado := none }
  | none, some _ => { apoio := a, xi_acumulado := none }
  | none, none => { apoio := a, xi_acumulado := none }

/-- `calcular_xi_acumulado_apoios` (`relger.py` lines 243-321): computes the
accumulated arc-length position of every support on the host polyline. -/
noncomputable def calcular_xi_acumulado_apoios (apoios : List Apoio)
    (coords : List (ℝ × ℝ)) : List ApoioXi :=
  apoios.map (calc_apoio_xi coords)

/-- Python-dict lookup `d.get(k)` on an association list (first binding of
the key wins; `dict_set` below keeps keys unique, as Python dicts do). -/
def dict_get {α : Type} : List (String × α) → String → Option α
  | [], _ => none
  | (k, v) :: rest, key => if k = key then some v else dict_get rest key

/-- Python-dict assignment `d[k] = v` on an association list: replaces the
value of an existing key in place, otherwise appends the new binding (the
insertion-order semantics of Python dicts). -/
def dict_set {α : Type} : List (String × α) → String → α → List (String × α)
  | [], key, v => [(key, v)]
  | (k, w) :: rest, key, v =>
      if k = key then (k, v) :: rest else (k, w) :: dict_set rest key v

/-- One span (`Vao=` line) of a beam as parsed by
`extrair_geometria_completa_viga` (`relger.py` lines 202-221): span number,
length `L` and support widths `BCs`/`BCi`, already converted to cm. -/
structure Vao where
  numero : String
  L : ℝ
  BCs : ℝ
  BCi : ℝ

/-- Helper for `xi_acumulado_por_vao`: the accumulation loop of
`relger.py` lines 228-234. -/
def xi_vao_go : List Vao → ℝ → List (String × ℝ) → List (String × ℝ)
  | [], _, m => m
  | v :: rest, xi_atual, m =>
      xi_vao_go rest (xi_atual + v.L + v.BCs) (dict_set m v.numero xi_atual)

/-- Global `Xi` at the START of each span: `0` for the first span and, for
each following span, the previous start plus the previous span's length
plus its right-support width `BCs` (`relger.py` lines 227-234; the final
dict of `extrair_geometria_completa_viga`). -/
def xi_acumulado_por_vao (vaos : List Vao) : List (String × ℝ) :=
  xi_vao_go vaos 0 []

/-- The candidate-selection loop of `determinar_viga_apoiada_espacial`
(`relger.py` lines 561-573): supports without a resolved `Xi` are skipped,
and a support replaces the running best only when its absolute difference
to `xi_trecho` is strictly smaller (so the first minimiser wins ties).
The state holds `(melhor_apoio, menor_diferenca)`. -/
noncomputable def melhor_apoio_aux :
    List ApoioXi → ℝ → Option (ApoioXi × ℝ) → Option (ApoioXi × ℝ)
  | [], _, best => best
  | a :: rest, xi_trecho, best =>
      match a.xi_acumulado with
      | none => melhor_apoio_aux rest xi_trecho best
      | some x =>
          match best with
          | none => melhor_apoio_aux rest xi_trecho (some (a, |x - xi_trecho|))
          | some (b, bd) =>
              if |x - xi_trecho| < bd then
                melhor_apoio_aux rest xi_trecho (some (a, |x - xi_trecho|))
              else
                melhor_apoio_aux rest xi_trecho (some (b, bd))

/-- Accumulated `Xi` of the current span position
(`relger.py` lines 548-556): when both the span number and the parsed span
list are available, the span's starting global `Xi` is added to the local
`Xi`; otherwise the local `Xi` is used as-is. -/
def xi_trecho_de (xi_local : ℝ) (vao_numero : Option String)
    (vaos_hospedeira : Option (List Vao)) : ℝ :=
  match vao_numero, vaos_hospedeira with
  | some vao, some vaos =>
      (dict_get (xi_acumulado_por_vao vaos) vao).getD 0 + xi_local
  | _, _ => xi_local

/-- `determinar_viga_apoiada_espacial` (`relger.py` lines 517-586).  The
`linhas` text argument of the source is represented by the list of spans
that `extrair_geometria_completa_viga` parses out of it (text extraction
by regular expressions belongs to the out-of-scope report reader; the
arithmetic on the parsed spans is `xi_acumulado_por_vao` above).  Returns
`(viga_apoiada, largura_cm, x_apoio, y_apoio)` or four `None`s. -/
noncomputable def determinar_viga_apoiada_espacial (viga_hospedeira : String)
    (xi_local : ℝ) (mapeamento_apoios : List (String × List Apoio))
    (geometrias : List (String × ℝ))
    (coords_hospedeiras : List (String × List (ℝ × ℝ)))
    (vao_numero : Option String) (vaos_hospedeira : Option (List Vao)) :
    Option String × Option ℝ × Option ℝ × Option ℝ :=
  match dict_get mapeamento_apoios viga_hospedeira with
  | none => (none, none, none, none)
  | some apoios =>
    match apoios with
    | [] => (none, none, none, none)
    | _ :: _ =>
      match (dict_get coords_hospedeiras viga_hospedeira).getD [] with
      | [] => (none, none, none, none)
      | c :: cs =>
        let xi_trecho : ℝ := xi_trecho_de xi_local vao_numero vaos_hospedeira
        let apoios_com_xi := calcular_xi_acumulado_apoios apoios (c :: cs)
        match melhor_apoio_aux apoios_com_xi xi_trecho none with
        | none => (none, none, none, none)
        | some (melhor, _) =>
          let largura_cm : Option ℝ :=
            match dict_get geometrias viga_hospedeira with
            | some w => if w = 0 then none else some (w / 2)
            | none => none
          (some melhor.apoio.viga_apoiada, largura_cm,
            melhor.apoio.x, melhor.apoio.y)

/-- Confirmation test of `validar_apoios_cruzado` (`relger.py` lines
436-441): the supported beam must list the host beam, verbatim, in its
`REAC. APOIO` relations. -/
def apoio_confirmado (apoios_relger : List (String × List String))
    (viga_hospedeira : String) (a : Apoio) : Bool :=
  decide (viga_hospedeira ∈ (dict_get apoios_relger a.viga_apoiada).getD [])

/-- `validar_apoios_cruzado` (`relger.py` lines 414-449): keeps, for each
host beam, exactly the candidates whose supported beam lists the host in
its `REAC. APOIO` section; hosts left with no confirmed candidate are
dropped from the output map. -/
def validar_apoios_cruzado (mapeamento_tqs : List (String × List Apoio))
    (apoios_relger : List (String × List String)) :
    List (String × List Apoio) :=
  mapeamento_tqs.filterMap fun hv =>
    match hv.2.filter (apoio_confirmado apoios_relger hv.1) with
    | [] => none
    | a :: as => some (hv.1, a :: as)

/-- Geometric membership tolerance `DIST_TOL_CM = 0.5`
(`nodes_vigas_tqs.py` line 31). -/
noncomputable def DIST_TOL_CM : ℝ := 0.5

/-- End-of-beam tolerance `NO_END_TOL_CM = 1.0`
(`nodes_vigas_tqs.py` line 32). -/
noncomputable def NO_END_TOL_CM : ℝ := 1

/-- Modelled from the spec: `TQSGeo.Projection` belongs to the external
TQS geometry library, whose code is not in this repository.  Per spec 4.2
it is the foot of the perpendicular from the point onto the segment's
infinite line, obtained from the raw (unclamped) scalar fraction. -/
noncomputable def tqs_projection (s e p : ℝ × ℝ) : ℝ × ℝ :=
  (s.1 + proj_escalar p s e * (e.1 - s.1),
   s.2 + proj_escalar p s e * (e.2 - s.2))

/-- Modelled from the spec: `TQSGeo.PointInSegment` belongs to the
external TQS geometry library, whose code is not in this repository.  Per
spec 4.2 the projection falls within the segment iff the unclamped scalar
fraction lies in `[0, 1]` (the spec's "small tolerance" taken as exact). -/
noncomputable def tqs_point_in_segment (s e p : ℝ × ℝ) : Bool :=
  decide (0 ≤ proj_escalar p s e ∧ proj_escalar p s e ≤ 1)

/-- `ponto_no_segmento` (`nodes_vigas_tqs.py` lines 146-170): projects the
point on the segment's line, rejects projections outside the segment
(`if not in_seg: return False, ...`), and otherwise accepts iff the
point-to-projection distance is within `tol`; returned as the conjunction
`in_seg && dist ≤ tol`, with the projected point in either case.  Returns
`(pertence, xproj, yproj)`. -/
noncomputable def ponto_no_segmento (p s e : ℝ × ℝ) (tol : ℝ) :
    Bool × ℝ × ℝ :=
  (tqs_point_in_segment s e p && decide (dist2d p (tqs_projection s e p) ≤ tol),
    (tqs_projection s e p).1, (tqs_projection s e p).2)

/-- `classifica_morre_no_segmento` (`nodes_vigas_tqs.py` lines 173-196):
an anchored-support classification; `false` when the point sits within
`end_tol` of either extreme node of the whole beam, `true` ("morre=2")
otherwise. -/
noncomputable def classifica_morre_no_segmento (p : ℝ × ℝ)
    (coords : List (ℝ × ℝ)) (end_tol : ℝ) : Bool :=
  if dist2d p (coords.headD (0, 0)) ≤ end_tol ∨
      dist2d p (coords.getLastD (0, 0)) ≤ end_tol then false else true

/-- Consecutive-node segments of a beam (`segmentos_da_viga`,
`nodes_vigas_tqs.py` lines 218-223). -/
def segmentos (coords : List (ℝ × ℝ)) : List ((ℝ × ℝ) × (ℝ × ℝ)) :=
  coords.zip coords.tail

/-- A beam as pre-loaded by `mapear_apoios_vigas`
(`nodes_vigas_tqs.py` lines 328-333): its identifier and node
coordinates. -/
structure VigaTQS where
  ident : String
  coords : List (ℝ × ℝ)

/-- An aggregated support assertion (`nodes_vigas_tqs.py` lines 416-421). -/
structure ApoioTQS where
  viga_hospedeira : String
  x : ℝ
  y : ℝ
  morre : ℕ

/-- The segment loop of `mapear_apoios_vigas`
(`nodes_vigas_tqs.py` lines 406-424): the first segment of the candidate
host that contains the node (within `DIST_TOL_CM`) produces the support
assertion, with the `morre` classification taken against the host's whole
polyline. -/
noncomputable def testa_segs (identB : String) (coordsB : List (ℝ × ℝ))
    (p : ℝ × ℝ) : List ((ℝ × ℝ) × (ℝ × ℝ)) → Option ApoioTQS
  | [] => none
  | (s, e) :: rest =>
      if (ponto_no_segmento p s e DIST_TOL_CM).1 then
        some { viga_hospedeira := identB, x := p.1, y := p.2,
               morre := if classifica_morre_no_segmento p coordsB NO_END_TOL_CM
                        then 2 else 0 }
      else testa_segs identB coordsB p rest

/-- The host-search loop of `mapear_apoios_vigas`
(`nodes_vigas_tqs.py` lines 397-428): walks the list of beams (skipping
the supported beam itself, compared by list position, which models Python
object identity), writes the first matching host's assertion into the map
keyed by the supported beam's identifier, and stops as soon as the map
contains that key (whether from this node or from a previous one). -/
noncomputable def busca_hospedeira (todas : List (ℕ × VigaTQS)) (idxA : ℕ)
    (identA : String) (p : ℝ × ℝ) (m : List (String × ApoioTQS)) :
    List (String × ApoioTQS) :=
  match todas with
  | [] => m
  | (j, vb) :: rest =>
      if j = idxA then busca_hospedeira rest idxA identA p m
      else
        let m' := match testa_segs vb.ident vb.coords p (segmentos vb.coords)
          with
          | some ap => dict_set m identA ap
          | none => m
        if (dict_get m' identA).isSome then m'
        else busca_hospedeira rest idxA identA p m'

/-- The aggregation loop of `mapear_apoios_vigas`
(`nodes_vigas_tqs.py` lines 384-432): for every beam and every one of its
nodes, search the remaining beams for a hosting segment; assertions are
stored in a dict keyed by the supported beam's identifier. -/
noncomputable def mapear_apoios_vigas (todas : List VigaTQS) :
    List (String × ApoioTQS) :=
  todas.enum.foldl
    (fun m ia =>
      ia.2.coords.foldl
        (fun m2 p => busca_hospedeira todas.enum ia.1 ia.2.ident p m2) m)
    []

/-- Python `str` whitespace for `split()` / `strip()`. -/
def py_isspace (c : Char) : Bool :=
  c = ' ' ∨ c = '\t' ∨ c = '\n' ∨ c = '\r' ∨ c = '\x0b' ∨ c = '\x0c'

/-- Helper for `py_split`: accumulates the current (reversed) token. -/
def py_split_go : List Char → List Char → List (List Char)
  | [], cur => if cur.isEmpty then [] else [cur.reverse]
  | c :: rest, cur =>
      if py_isspace c then
        if cur.isEmpty then py_split_go rest []
        else cur.reverse :: py_split_go rest []
      else py_split_go rest (c :: cur)

/-- Python `s.split()`: split on runs of whitespace, no empty tokens. -/
def py_split (s : List Char) : List (List Char) :=
  py_split_go s []

/-- Python `s.strip()`. -/
def py_strip (s : List Char) : List Char :=
  ((s.dropWhile py_isspace).reverse.dropWhile py_isspace).reverse

/-- Python `s.startswith(pre)`. -/
def py_startswith (s pre : List Char) : Bool :=
  pre.isPrefixOf s

/-- Python `s.replace(old, new)` for a non-empty pattern `o :: olds`:
replaces every non-overlapping occurrence, left to right. -/
def py_replace_go (o : Char) (olds news : List Char) : List Char → List Char
  | [] => []
  | c :: rest =>
      if c = o ∧ olds.isPrefixOf rest then
        news ++ py_replace_go o olds news (rest.drop olds.length)
      else
        c :: py_replace_go o olds news rest
termination_by l => l.length
decreasing_by
  all_goals simp [List.length_drop]
  omega

/-- Python `s.replace(old, new)` (empty `old` never occurs in the source's
calls; it is modelled as the identity). -/
def py_replace (s old news : List Char) : List Char :=
  match old with
  | [] => s
  | o :: olds => py_replace_go o olds news s

/-- Python `haystack.find(needle)` - also the position of
`re.search(re.escape(needle), haystack)`, since an escaped pattern matches
literally (`mapear_colunas_cisalhamento`, `relger.py` lines 80-86). -/
def py_find (needle : List Char) : List Char → Option ℕ
  | [] => if needle.isEmpty then some 0 else none
  | c :: rest =>
      if needle.isPrefixOf (c :: rest) then some 0
      else (py_find needle rest).map (· + 1)

/-- Value of a string of decimal digits. -/
def digits_to_nat (l : List Char) : ℕ :=
  l.foldl (fun n c => 10 * n + (c.toNat - 48)) 0

/-- Unsigned part of `py_float`: digits with an optional single decimal
point, e.g. `135`, `135.`, `.5`, `1.25`. -/
def py_float_core (s : List Char) : Option ℚ :=
  let a := s.takeWhile (· ≠ '.')
  if s.contains '.' then
    let b := (s.dropWhile (· ≠ '.')).tail
    if ¬ (a ++ b).isEmpty ∧ a.all Char.isDigit ∧ b.all Char.isDigit then
      some ((digits_to_nat (a ++ b) : ℚ) / 10 ^ b.length)
    else none
  else
    if ¬ a.isEmpty ∧ a.all Char.isDigit then some (digits_to_nat a) else none

/-- Models CPython `float(token)` on the plain decimal literals the TQS
report emits (optional sign, decimal digits, at most one decimal point);
`none` models the `ValueError` branch. -/
def py_float (s : List Char) : Option ℚ :=
  match s with
  | '-' :: rest => (py_float_core rest).map (fun q => -q)
  | '+' :: rest => py_float_core rest
  | _ => py_float_core s

/-- The fixed TQS `CISALHAMENTO` header (`cabecalho_completo`,
`relger.py` line 113). -/
def cabecalho_completo : List (List Char) :=
  ["Xi", "Xf", "Vsd", "VRd2", "MdC", "Ang.", "Asw[C]", "Aswmin",
   "Asw[C+T]", "Bit", "Esp", "NR", "AsTrt", "AsSus"].map String.toList

/-- Column name `Aswmin`. -/
def col_Aswmin : List Char := "Aswmin".toList

/-- Column name `Asw[C+T]`. -/
def col_AswCT : List Char := "Asw[C+T]".toList

/-- Column name `AsTrt`. -/
def col_AsTrt : List Char := "AsTrt".toList

/-- Column name `AsSus`. -/
def col_AsSus : List Char := "AsSus".toList

/-- `mapear_colunas_cisalhamento` (`relger.py` lines 72-91): locates the
four columns of interest in the header line and records their character
ranges; returns `None` unless all four are present. -/
def mapear_colunas_cisalhamento (cab : List Char) :
    Option (List (List Char × ℕ × ℕ)) :=
  match py_find col_Aswmin cab, py_find col_AswCT cab,
      py_find col_AsTrt cab, py_find col_AsSus cab with
  | some i1, some i2, some i3, some i4 =>
      some [(col_Aswmin, i1, i1 + col_Aswmin.length),
            (col_AswCT, i2, i2 + col_AswCT.length),
            (col_AsTrt, i3, i3 + col_AsTrt.length),
            (col_AsSus, i4, i4 + col_AsSus.length)]
  | _, _, _, _ => none

/-- The extracted shear-line record (`dados`, `relger.py` lines 147-153). -/
structure Dados where
  xi : ℚ
  aswmin : ℚ
  asw_ct : ℚ
  astrt : ℚ
  assus : ℚ
deriving DecidableEq

/-- `get_token_value` (`relger.py` lines 133-145): value of the token at
the column's fixed-header position, `0.0` when the column is not mapped,
the token is missing from the data line, or the token is not numeric. -/
def get_token_value (mapa_keys : List (List Char))
    (tokens : List (List Char)) (col : List Char) : ℚ :=
  if mapa_keys.contains col ∧ cabecalho_completo.contains col then
    if tokens.length ≤ cabecalho_completo.indexOf col then 0
    else ((py_float (tokens.getD (cabecalho_completo.indexOf col) [])).getD 0)
  else 0

/-- The `[tf,cm]` prefix wiped from data lines
(`relger.py` lines 103-105). -/
def tfcm : List Char := "[tf,cm]".toList

/-- Cleaned data line (`linha_limpa`, `relger.py` lines 103-105): when the
stripped line starts with `[tf,cm]`, that marker is replaced by blanks. -/
def linha_limpa (linha : List Char) : List Char :=
  if py_startswith (py_strip linha) tfcm then
    py_replace linha tfcm ("       ".toList)
  else linha

/-- Tokenisation of a data line (`relger.py` line 108). -/
def tokens_de (linha : List Char) : List (List Char) :=
  py_split (linha_limpa linha)

/-- The `Xi` token repair (`relger.py` line 128): ranges like `135.-` keep
only the part before the dash. -/
def xi_token (t0 : List Char) : List Char :=
  if t0.contains '-' then t0.takeWhile (· ≠ '-') else t0

/-- `extrair_valores_por_posicao` (`relger.py` lines 94-155): token-based
extraction of `Xi` and the four columns of interest; returns `None` when
no column map exists, the line has no tokens, or the `Xi` token is not
numeric; each of the four values independently defaults to `0.0`. -/
def extrair_valores_por_posicao (linha : List Char)
    (mapa : Option (List (List Char × ℕ × ℕ))) : Option Dados :=
  match mapa with
  | none => none
  | some mp =>
      match tokens_de linha with
      | [] => none
      | t0 :: _ =>
          match py_float (xi_token t0) with
          | none => none
          | some xi =>
              some { xi := xi
                     aswmin := get_token_value (mp.map (fun e => e.1))
                       (tokens_de linha) col_Aswmin
                     asw_ct := get_token_value (mp.map (fun e => e.1))
                       (tokens_de linha) col_AswCT
                     astrt := get_token_value (mp.map (fun e => e.1))
                       (tokens_de linha) col_AsTrt
                     assus := get_token_value (mp.map (fun e => e.1))
                       (tokens_de linha) col_AsSus }

/-- The point of the segment `s`-`e` at parameter `t ∈ [0, 1]` - used to
CONSTRUCT a point lying exactly on a beam polyline at a known arc-length
position. -/
def ponto_sobre_segmento (s e : ℝ × ℝ) (t : ℝ) : ℝ × ℝ :=
  (s.1 + t * (e.1 - s.1), s.2 + t * (e.2 - s.2))

/-- Total Euclidean length of the polyline chain that starts at `prev`
and passes through the listed nodes - the accumulated arc length at the
chain's last node. -/
noncomputable def comprimento_cadeia (prev : ℝ × ℝ) : List (ℝ × ℝ) → ℝ
  | [] => 0
  | c :: rest => dist2d prev c + comprimento_cadeia c rest

/-- Every segment of the chain from `prev` through the listed nodes is
either degenerate (skipped by the resolver) or at a strictly positive
perpendicular distance from the point `p` - i.e. no EARLIER segment of
the polyline passes through `p`. -/
def segmentos_anteriores_ok (p : ℝ × ℝ) : (ℝ × ℝ) → List (ℝ × ℝ) → Prop
  | _, [] => True
  | prev, c :: rest =>
      (dist2d prev c < 0.01 ∨ 0 < dist_perp p prev c) ∧
        segmentos_anteriores_ok p c rest

/-! Basic facts about the geometric primitives. -/

theorem dist2d_nonneg (p q : ℝ × ℝ) : 0 ≤ dist2d p q :=
  Real.sqrt_nonneg _

theorem dist2d_horiz (x1 x2 y : ℝ) : dist2d (x1, y) (x2, y) = |x2 - x1| := by
  simp [dist2d, Real.sqrt_sq_eq_abs]

theorem dist2d_vert (x y1 y2 : ℝ) : dist2d (x, y1) (x, y2) = |y2 - y1| := by
  simp [dist2d, Real.sqrt_sq_eq_abs]

theorem dist2d_self (p : ℝ × ℝ) : dist2d p p = 0 := by
  simp [dist2d]

theorem dist_perp_nonneg (p s e : ℝ × ℝ) : 0 ≤ dist_perp p s e :=
  Real.sqrt_nonneg _

/-! Unfolding lemmas for the segment loop of the arc-length resolver. -/

theorem melhor_xi_aux_nil (p prev : ℝ × ℝ) (xiBase : ℝ)
    (best : Option (ℝ × ℝ)) : melhor_xi_aux p prev [] xiBase best = best :=
  rfl

theorem melhor_xi_aux_cons_deg (p prev c : ℝ × ℝ) (rest : List (ℝ × ℝ))
    (xiBase : ℝ) (best : Option (ℝ × ℝ)) (h : dist2d prev c < 0.01) :
    melhor_xi_aux p prev (c :: rest) xiBase best =
      melhor_xi_aux p c rest (xiBase + dist2d prev c) best := by
  simp [melhor_xi_aux, h]

theorem melhor_xi_aux_cons (p prev c : ℝ × ℝ) (rest : List (ℝ × ℝ))
    (xiBase : ℝ) (best : Option (ℝ × ℝ)) (h : ¬ dist2d prev c < 0.01) :
    melhor_xi_aux p prev (c :: rest) xiBase best =
      melhor_xi_aux p c rest (xiBase + dist2d prev c)
        (atualiza_melhor (dist_perp p prev c)
          (xiBase + proj_clamp p prev c * dist2d prev c) best) := by
  simp [melhor_xi_aux, h]

theorem atualiza_melhor_none (d xi : ℝ) :
    atualiza_melhor d xi none = some (d, xi) :=
  rfl

theorem atualiza_melhor_lt (d xi bd bxi : ℝ) (h : d < bd) :
    atualiza_melhor d xi (some (bd, bxi)) = some (d, xi) := by
  simp [atualiza_melhor, h]

theorem atualiza_melhor_ge (d xi bd bxi : ℝ) (h : ¬ d < bd) :
    atualiza_melhor d xi (some (bd, bxi)) = some (bd, bxi) := by
  simp [atualiza_melhor, h]

/-- The scalar projection on a horizontal segment reduces to the relative
abscissa. -/
theorem proj_escalar_horiz (x1 x2 y px py : ℝ) (h : x2 - x1 ≠ 0) :
    proj_escalar (px, py) (x1, y) (x2, y) = (px - x1) / (x2 - x1) := by
  unfold proj_escalar
  rw [dist2d_horiz, sq_abs]
  have : (px - x1) * (x2 - x1) + (py - y) * (y - y) =
      (px - x1) * (x2 - x1) := by ring
  rw [this, sq, mul_div_mul_right _ _ h]

/-! Facts about the cumulative arc-length list `xi_nos`. -/

theorem xi_nos_go_length (l : List (ℝ × ℝ)) : ∀ (c : ℝ × ℝ) (acc : ℝ),
    (xi_nos_go c acc l).length = l.length + 1 := by
  induction l with
  | nil => intro c acc; rfl
  | cons d rest ih => intro c acc; simp [xi_nos_go, ih]

theorem xi_nos_go_head (c : ℝ × ℝ) (acc : ℝ) (l : List (ℝ × ℝ)) :
    (xi_nos_go c acc l).getD 0 0 = acc := by
  cases l <;> rfl

theorem xi_nos_go_head' (c : ℝ × ℝ) (acc : ℝ) (l : List (ℝ × ℝ)) :
    ((xi_nos_go c acc l)[0]?).getD 0 = acc := by
  cases l <;> simp [xi_nos_go]

theorem xi_nos_go_succ (l : List (ℝ × ℝ)) : ∀ (c : ℝ × ℝ) (acc : ℝ) (i : ℕ),
    i + 1 < l.length + 1 →
    (xi_nos_go c acc l).getD (i + 1) 0 =
      (xi_nos_go c acc l).getD i 0 +
        dist2d ((c :: l).getD i (0, 0)) ((c :: l).getD (i + 1) (0, 0)) := by
  induction l with
  | nil =>
    intro c acc i hi
    exact absurd hi (by simp)
  | cons d rest ih =>
    intro c acc i hi
    cases i with
    | zero =>
      simp [xi_nos_go, xi_nos_go_head']
    | succ i =>
      have hi' : i + 1 < rest.length + 1 := by
        simpa using hi
      simpa [xi_nos_go] using ih d (acc + dist2d c d) i hi'

/-- C9: for every beam with n ≥ 2 nodes, the arc-length list has exactly
n entries, starts at 0, each entry adds the Euclidean distance between
the corresponding consecutive nodes, and the list is non-decreasing. -/
theorem xi_nos_especificacao (coords : List (ℝ × ℝ))
    (h : 2 ≤ coords.length) :
    (xi_nos coords).length = coords.length ∧
    (xi_nos coords).getD 0 0 = 0 ∧
    (∀ i, i + 1 < coords.length →
      (xi_nos coords).getD (i + 1) 0 =
        (xi_nos coords).getD i 0 +
          dist2d (coords.getD i (0, 0)) (coords.getD (i + 1) (0, 0))) ∧
    (∀ i, i + 1 < coords.length →
      (xi_nos coords).getD i 0 ≤ (xi_nos coords).getD (i + 1) 0) := by
  match coords with
  | [] => exact absurd h (by simp)
  | c :: rest =>
    have hsucc : ∀ i, i + 1 < (c :: rest).length →
        (xi_nos (c :: rest)).getD (i + 1) 0 =
          (xi_nos (c :: rest)).getD i 0 +
            dist2d ((c :: rest).getD i (0, 0))
              ((c :: rest).getD (i + 1) (0, 0)) := by
      intro i hi
      have hi' : i + 1 < rest.length + 1 := by simpa using hi
      simpa [xi_nos] using xi_nos_go_succ rest c 0 i hi'
    refine ⟨by simp [xi_nos, xi_nos_go_length],
      by simp [xi_nos, xi_nos_go_head'], hsucc, ?_⟩
    intro i hi
    rw [hsucc i hi]
    exact le_add_of_nonneg_right (dist2d_nonneg _ _)

/-- Witness for C9 at the two-node beam `[(0,0), (3,4)]`. -/
theorem xi_nos_especificacao_witness :
    2 ≤ ([((0:ℝ), (0:ℝ)), (3, 4)] : List (ℝ × ℝ)).length ∧
    ((xi_nos [((0:ℝ), (0:ℝ)), (3, 4)]).length =
        ([((0:ℝ), (0:ℝ)), (3, 4)] : List (ℝ × ℝ)).length ∧
      (xi_nos [((0:ℝ), (0:ℝ)), (3, 4)]).getD 0 0 = 0 ∧
      (∀ i, i + 1 < ([((0:ℝ), (0:ℝ)), (3, 4)] : List (ℝ × ℝ)).length →
        (xi_nos [((0:ℝ), (0:ℝ)), (3, 4)]).getD (i + 1) 0 =
          (xi_nos [((0:ℝ), (0:ℝ)), (3, 4)]).getD i 0 +
            dist2d (([((0:ℝ), (0:ℝ)), (3, 4)] : List (ℝ × ℝ)).getD i (0, 0))
              (([((0:ℝ), (0:ℝ)), (3, 4)] : List (ℝ × ℝ)).getD (i + 1) (0, 0))) ∧
      (∀ i, i + 1 < ([((0:ℝ), (0:ℝ)), (3, 4)] : List (ℝ × ℝ)).length →
        (xi_nos [((0:ℝ), (0:ℝ)), (3, 4)]).getD i 0 ≤
          (xi_nos [((0:ℝ), (0:ℝ)), (3, 4)]).getD (i + 1) 0)) :=
  ⟨by simp, xi_nos_especificacao _ (by simp)⟩

/-! Claim C7: behaviour of the resolver on beams with fewer than 2 nodes. -/

theorem melhor_xi_degenerado (coords : List (ℝ × ℝ)) (p : ℝ × ℝ)
    (h : coords.length < 2) : melhor_xi coords p = none := by
  match coords, h with
  | [], _ => rfl
  | [c], _ => rfl

theorem calc_apoio_xi_degenerado (coords : List (ℝ × ℝ)) (a : Apoio)
    (h : coords.length < 2) :
    calc_apoio_xi coords a =
      ⟨a, if a.x.isSome ∧ a.y.isSome then some 0 else none⟩ := by
  cases hx : a.x <;> cases hy : a.y <;>
    simp [calc_apoio_xi, hx, hy, melhor_xi_degenerado _ _ h]

/-- C7 (amended): with fewer than 2 nodes the arc-length computation does
NOT fail: it returns an ordinary record for every support, with
`xi_acumulado` defaulted to `0.0` for supports that carry coordinates and
absent only for supports without coordinates; other beams are unaffected
(the function is total). -/
theorem calcular_xi_viga_degenerada (apoios : List Apoio)
    (coords : List (ℝ × ℝ)) (h : coords.length < 2) :
    calcular_xi_acumulado_apoios apoios coords =
      apoios.map (fun a =>
        ⟨a, if a.x.isSome ∧ a.y.isSome then some 0 else none⟩) := by
  unfold calcular_xi_acumulado_apoios
  induction apoios with
  | nil => rfl
  | cons a rest ih =>
      simp only [List.map_cons]
      rw [calc_apoio_xi_degenerado coords a h, ih]

/-- Witness for C7 (amended) at a one-node beam. -/
theorem calcular_xi_viga_degenerada_witness :
    ([((0:ℝ), (0:ℝ))] : List (ℝ × ℝ)).length < 2 ∧
    calcular_xi_acumulado_apoios
        [{ viga_apoiada := "V2", x := some 7, y := some 8 }]
        [((0:ℝ), (0:ℝ))] =
      [({ viga_apoiada := "V2", x := some 7, y := some 8 } : Apoio)].map
        (fun a => ⟨a, if a.x.isSome ∧ a.y.isSome then some 0 else none⟩) :=
  ⟨by simp, calcular_xi_viga_degenerada _ _ (by simp)⟩

/-- C7 counterexample: on a beam with a single node (fewer than 2) the
code raises no `DegenerateGeometry` failure at all - it returns an
ordinary, successful record and substitutes the default xi `0.0`, where
the claim demands a failure for that beam's resolution. -/
theorem calcular_xi_um_no_nao_falha :
    calcular_xi_acumulado_apoios
        [{ viga_apoiada := "V1", x := some 1, y := some 2 }]
        [((3:ℝ), (4:ℝ))] =
      [{ apoio := { viga_apoiada := "V1", x := some 1, y := some 2 },
         xi_acumulado := some 0 }] := by
  simp [calcular_xi_acumulado_apoios, calc_apoio_xi, melhor_xi,
    melhor_xi_aux]

/-! Claim C1: the resolver and the membership tolerance. -/

theorem calc_apoio_xi_apoio (coords : List (ℝ × ℝ)) (a : Apoio) :
    (calc_apoio_xi coords a).apoio = a := by
  cases hx : a.x <;> cases hy : a.y <;> simp [calc_apoio_xi, hx, hy]

/-- C1 (amended): the arc-length resolver applies NO membership
tolerance: every support that carries coordinates receives a PRESENT
`xi_acumulado` - the best segment's Xi whatever its perpendicular
distance, or the substituted default `0.0` when no candidate segment
exists; `xi_acumulado` is absent only for supports without
coordinates. -/
theorem calcular_xi_sem_tolerancia (apoios : List Apoio)
    (coords : List (ℝ × ℝ)) (a : Apoio) (ha : a ∈ apoios) :
    ∃ e ∈ calcular_xi_acumulado_apoios apoios coords, e.apoio = a ∧
      ((a.x = none ∨ a.y = none) → e.xi_acumulado = none) ∧
      (∀ xa ya, a.x = some xa → a.y = some ya →
        ∃ r, e.xi_acumulado = some r ∧
          (melhor_xi coords (xa, ya) = none → r = 0) ∧
          (∀ d x, melhor_xi coords (xa, ya) = some (d, x) → r = x)) := by
  refine ⟨calc_apoio_xi coords a,
    by simpa [calcular_xi_acumulado_apoios] using List.mem_map_of_mem _ ha,
    calc_apoio_xi_apoio _ _, ?_, ?_⟩
  · intro h
    rcases h with hx | hy
    · cases hy : a.y <;> simp [calc_apoio_xi, hx, hy]
    · cases hx : a.x <;> simp [calc_apoio_xi, hx, hy]
  · intro xa ya hx hy
    refine ⟨((melhor_xi coords (xa, ya)).map Prod.snd).getD 0,
      by simp [calc_apoio_xi, hx, hy], ?_, ?_⟩
    · intro hm; simp [hm]
    · intro d x hm; simp [hm]

/-- Witness for C1 (amended): a support 100 length units away from the
beam axis still gets a present xi. -/
theorem calcular_xi_sem_tolerancia_witness :
    ({ viga_apoiada := "VX", x := some 5, y := some 100 } : Apoio) ∈
      [({ viga_apoiada := "VX", x := some 5, y := some 100 } : Apoio)] ∧
    ∃ e ∈ calcular_xi_acumulado_apoios
        [({ viga_apoiada := "VX", x := some 5, y := some 100 } : Apoio)]
        [((0:ℝ), (0:ℝ)), (10, 0)],
      e.apoio = ({ viga_apoiada := "VX", x := some 5, y := some 100 } : Apoio) ∧
      ((({ viga_apoiada := "VX", x := some 5, y := some 100 } : Apoio).x = none ∨
        ({ viga_apoiada := "VX", x := some 5, y := some 100 } : Apoio).y = none) →
        e.xi_acumulado = none) ∧
      (∀ xa ya,
        ({ viga_apoiada := "VX", x := some 5, y := some 100 } : Apoio).x = some xa →
        ({ viga_apoiada := "VX", x := some 5, y := some 100 } : Apoio).y = some ya →
        ∃ r, e.xi_acumulado = some r ∧
          (melhor_xi [((0:ℝ), (0:ℝ)), (10, 0)] (xa, ya) = none → r = 0) ∧
          (∀ d x,
            melhor_xi [((0:ℝ), (0:ℝ)), (10, 0)] (xa, ya) = some (d, x) →
            r = x)) :=
  ⟨by simp, calcular_xi_sem_tolerancia _ _ _ (by simp)⟩

theorem melhor_xi_ce_eval :
    melhor_xi [((0:ℝ), (0:ℝ)), (10, 0)] (5, 100) = some (100, 5) := by
  have hlen : dist2d ((0:ℝ), (0:ℝ)) ((10:ℝ), (0:ℝ)) = 10 := by
    rw [dist2d_horiz]; norm_num
  have hproj : proj_escalar ((5:ℝ), (100:ℝ)) ((0:ℝ), (0:ℝ))
      ((10:ℝ), (0:ℝ)) = 1 / 2 := by
    rw [proj_escalar_horiz _ _ _ _ _ (by norm_num)]; norm_num
  have hclamp : proj_clamp ((5:ℝ), (100:ℝ)) ((0:ℝ), (0:ℝ))
      ((10:ℝ), (0:ℝ)) = 1 / 2 := by
    rw [proj_clamp, hproj]; norm_num
  have hpp : ponto_proj ((5:ℝ), (100:ℝ)) ((0:ℝ), (0:ℝ))
      ((10:ℝ), (0:ℝ)) = ((5:ℝ), (0:ℝ)) := by
    rw [ponto_proj, hclamp]; norm_num
  have hdp : dist_perp ((5:ℝ), (100:ℝ)) ((0:ℝ), (0:ℝ))
      ((10:ℝ), (0:ℝ)) = 100 := by
    rw [dist_perp, hpp, dist2d_vert]; norm_num
  show melhor_xi_aux (5, 100) (0, 0) [(10, 0)] 0 none = some (100, 5)
  rw [melhor_xi_aux_cons _ _ _ _ _ _ (by rw [hlen]; norm_num),
    melhor_xi_aux_nil, atualiza_melhor_none, hdp, hclamp, hlen]
  norm_num

/-- C1 counterexample: the point `(5, 100)` sits at perpendicular
distance `100` from the beam `[(0,0), (10,0)]` - far beyond the membership
tolerance `0.5` - yet the resolver returns the present xi `5.0` instead of
the `None` the claim demands; and with no candidate segment at all the
resolver substitutes the default xi `0.0`. -/
theorem calcular_xi_ignora_tolerancia_ce :
    melhor_xi [((0:ℝ), (0:ℝ)), (10, 0)] (5, 100) = some (100, 5) ∧
    ¬ ((100:ℝ) ≤ DIST_TOL_CM) ∧
    (calc_apoio_xi [((0:ℝ), (0:ℝ)), (10, 0)]
        { viga_apoiada := "VX", x := some 5, y := some 100 }).xi_acumulado =
      some 5 ∧
    calcular_xi_acumulado_apoios
        [{ viga_apoiada := "VY", x := some 200, y := some 300 }] [] =
      [{ apoio := { viga_apoiada := "VY", x := some 200, y := some 300 },
         xi_acumulado := some 0 }] := by
  refine ⟨melhor_xi_ce_eval, by norm_num [DIST_TOL_CM], ?_, ?_⟩
  · show some ((Option.map Prod.snd
        (melhor_xi [((0:ℝ), (0:ℝ)), (10, 0)] (5, 100))).getD 0) = some 5
    rw [melhor_xi_ce_eval]
    rfl
  · simp [calcular_xi_acumulado_apoios, calc_apoio_xi, melhor_xi]

/-! Claims C3 and C10: the candidate-selection loop. -/

theorem melhor_apoio_aux_mem (l : List ApoioXi) :
    ∀ (t : ℝ) (best : Option (ApoioXi × ℝ)) (r : ApoioXi × ℝ),
    melhor_apoio_aux l t best = some r →
    best = some r ∨
      ∃ a ∈ l, ∃ x, a.xi_acumulado = some x ∧ r = (a, |x - t|) := by
  induction l with
  | nil =>
    intro t best r h
    exact Or.inl h
  | cons a rest ih =>
    intro t best r h
    cases hxi : a.xi_acumulado with
    | none =>
      have hstep : melhor_apoio_aux (a :: rest) t best =
          melhor_apoio_aux rest t best := by
        simp only [melhor_apoio_aux, hxi]
      rw [hstep] at h
      rcases ih t best r h with hb | ⟨c, hc, x, hx, hr⟩
      · exact Or.inl hb
      · exact Or.inr ⟨c, List.mem_cons_of_mem _ hc, x, hx, hr⟩
    | some x =>
      cases best with
      | none =>
        have hstep : melhor_apoio_aux (a :: rest) t none =
            melhor_apoio_aux rest t (some (a, |x - t|)) := by
          simp only [melhor_apoio_aux, hxi]
        rw [hstep] at h
        rcases ih t _ r h with hb | ⟨c, hc, y, hy, hr⟩
        · exact Or.inr ⟨a, List.mem_cons_self _ _, x, hxi, (Option.some_inj.mp hb).symm⟩
        · exact Or.inr ⟨c, List.mem_cons_of_mem _ hc, y, hy, hr⟩
      | some bv =>
        rcases bv with ⟨b, bd⟩
        by_cases hlt : |x - t| < bd
        · have hstep : melhor_apoio_aux (a :: rest) t (some (b, bd)) =
              melhor_apoio_aux rest t (some (a, |x - t|)) := by
            simp only [melhor_apoio_aux, hxi, if_pos hlt]
          rw [hstep] at h
          rcases ih t _ r h with hb | ⟨c, hc, y, hy, hr⟩
          · exact Or.inr ⟨a, List.mem_cons_self _ _, x, hxi, (Option.some_inj.mp hb).symm⟩
          · exact Or.inr ⟨c, List.mem_cons_of_mem _ hc, y, hy, hr⟩
        · have hstep : melhor_apoio_aux (a :: rest) t (some (b, bd)) =
              melhor_apoio_aux rest t (some (b, bd)) := by
            simp only [melhor_apoio_aux, hxi, if_neg hlt]
          rw [hstep] at h
          rcases ih t _ r h with hb | ⟨c, hc, y, hy, hr⟩
          · exact Or.inl hb
          · exact Or.inr ⟨c, List.mem_cons_of_mem _ hc, y, hy, hr⟩

theorem melhor_apoio_aux_spec (l : List ApoioXi) :
    ∀ (t : ℝ) (b : ApoioXi) (bd : ℝ),
    (melhor_apoio_aux l t (some (b, bd)) = some (b, bd) ∧
      ∀ a ∈ l, ∀ x, a.xi_acumulado = some x → bd ≤ |x - t|) ∨
    (∃ l1 a l2 x, l = l1 ++ a :: l2 ∧ a.xi_acumulado = some x ∧
      melhor_apoio_aux l t (some (b, bd)) = some (a, |x - t|) ∧
      |x - t| < bd ∧
      (∀ c ∈ l1, ∀ y, c.xi_acumulado = some y → |x - t| < |y - t|) ∧
      (∀ c ∈ l2, ∀ y, c.xi_acumulado = some y → |x - t| ≤ |y - t|)) := by
  induction l with
  | nil =>
    intro t b bd
    exact Or.inl ⟨rfl, by simp⟩
  | cons a rest ih =>
    intro t b bd
    cases hxi : a.xi_acumulado with
    | none =>
      have hstep : melhor_apoio_aux (a :: rest) t (some (b, bd)) =
          melhor_apoio_aux rest t (some (b, bd)) := by
        simp only [melhor_apoio_aux, hxi]
      rcases ih t b bd with ⟨he, hmin⟩ | ⟨l1, c, l2, y, hdec, hy, he, hlt, hl1, hl2⟩
      · refine Or.inl ⟨hstep.trans he, ?_⟩
        intro d hd z hz
        rcases List.mem_cons.mp hd with rfl | hd
        · rw [hxi] at hz; cases hz
        · exact hmin d hd z hz
      · refine Or.inr ⟨a :: l1, c, l2, y, by simp [hdec], hy,
          hstep.trans he, hlt, ?_, hl2⟩
        intro d hd z hz
        rcases List.mem_cons.mp hd with rfl | hd
        · rw [hxi] at hz; cases hz
        · exact hl1 d hd z hz
    | some x =>
      by_cases hlt0 : |x - t| < bd
      · have hstep : melhor_apoio_aux (a :: rest) t (some (b, bd)) =
            melhor_apoio_aux rest t (some (a, |x - t|)) := by
          simp only [melhor_apoio_aux, hxi, if_pos hlt0]
        rcases ih t a |x - t| with ⟨he, hmin⟩ |
          ⟨l1, c, l2, y, hdec, hy, he, hlt, hl1, hl2⟩
        · refine Or.inr ⟨[], a, rest, x, by simp, hxi,
            hstep.trans he, hlt0, by simp, hmin⟩
        · refine Or.inr ⟨a :: l1, c, l2, y, by simp [hdec], hy,
            hstep.trans he, lt_trans hlt hlt0, ?_, hl2⟩
          intro d hd z hz
          rcases List.mem_cons.mp hd with rfl | hd
          · rw [hxi] at hz
            cases hz
            exact hlt
          · exact hl1 d hd z hz
      · have hstep : melhor_apoio_aux (a :: rest) t (some (b, bd)) =
            melhor_apoio_aux rest t (some (b, bd)) := by
          simp only [melhor_apoio_aux, hxi, if_neg hlt0]
        rcases ih t b bd with ⟨he, hmin⟩ |
          ⟨l1, c, l2, y, hdec, hy, he, hlt, hl1, hl2⟩
        · refine Or.inl ⟨hstep.trans he, ?_⟩
          intro d hd z hz
          rcases List.mem_cons.mp hd with rfl | hd
          · rw [hxi] at hz
            cases hz
            exact le_of_not_lt hlt0
          · exact hmin d hd z hz
        · refine Or.inr ⟨a :: l1, c, l2, y, by simp [hdec], hy,
            hstep.trans he, hlt, ?_, hl2⟩
          intro d hd z hz
          rcases List.mem_cons.mp hd with rfl | hd
          · rw [hxi] at hz
            cases hz
            exact lt_of_lt_of_le hlt (le_of_not_lt hlt0)
          · exact hl1 d hd z hz

/-- C3: on a non-empty candidate list whose xi values are all resolved,
the selection loop returns the candidate whose xi has the minimum
absolute difference to the demand Xi, and among equal-difference
candidates the FIRST in insertion order (every candidate strictly before
the selected one has a strictly larger difference).  The selection is a
function of the list and the demand Xi, so repeated calls agree by
definition. -/
theorem determinar_selecao_minima (l : List ApoioXi) (t : ℝ)
    (hne : l ≠ [])
    (hsome : ∀ a ∈ l, (ApoioXi.xi_acumulado a).isSome = true) :
    ∃ l1 a l2 x, l = l1 ++ a :: l2 ∧ a.xi_acumulado = some x ∧
      melhor_apoio_aux l t none = some (a, |x - t|) ∧
      (∀ c ∈ l, ∀ y, c.xi_acumulado = some y → |x - t| ≤ |y - t|) ∧
      (∀ c ∈ l1, ∀ y, c.xi_acumulado = some y → |x - t| < |y - t|) := by
  match l, hne with
  | a0 :: rest, _ =>
    have h0 : (a0.xi_acumulado).isSome = true :=
      hsome a0 (List.mem_cons_self _ _)
    rcases Option.isSome_iff_exists.mp h0 with ⟨x0, hx0⟩
    have hstep : melhor_apoio_aux (a0 :: rest) t none =
        melhor_apoio_aux rest t (some (a0, |x0 - t|)) := by
      simp only [melhor_apoio_aux, hx0]
    rcases melhor_apoio_aux_spec rest t a0 |x0 - t| with ⟨he, hmin⟩ |
      ⟨l1, c, l2, y, hdec, hy, he, hlt, hl1, hl2⟩
    · refine ⟨[], a0, rest, x0, by simp, hx0, hstep.trans he, ?_, by simp⟩
      intro d hd z hz
      rcases List.mem_cons.mp hd with rfl | hd
      · rw [hx0] at hz
        cases hz
        exact le_refl _
      · exact hmin d hd z hz
    · refine ⟨a0 :: l1, c, l2, y, by simp [hdec], hy, hstep.trans he, ?_, ?_⟩
      · intro d hd z hz
        rcases List.mem_cons.mp hd with rfl | hd
        · rw [hx0] at hz
          cases hz
          exact le_of_lt hlt
        · rw [hdec] at hd
          rcases List.mem_append.mp hd with hd | hd
          · exact le_of_lt (hl1 d hd z hz)
          · rcases List.mem_cons.mp hd with rfl | hd
            · rw [hy] at hz
              cases hz
              exact le_refl _
            · exact hl2 d hd z hz
      · intro d hd z hz
        rcases List.mem_cons.mp hd with rfl | hd
        · rw [hx0] at hz
          cases hz
          exact hlt
        · exact hl1 d hd z hz

/-- Witness for C3 on the two-candidate list with differences 3 and 1. -/
theorem determinar_selecao_minima_witness :
    ([⟨⟨"VA", none, none⟩, some 3⟩, ⟨⟨"VB", none, none⟩, some 1⟩] :
        List ApoioXi) ≠ [] ∧
    (∀ a ∈ ([⟨⟨"VA", none, none⟩, some 3⟩, ⟨⟨"VB", none, none⟩, some 1⟩] :
        List ApoioXi), (ApoioXi.xi_acumulado a).isSome = true) ∧
    ∃ l1 a l2 x,
      ([⟨⟨"VA", none, none⟩, some 3⟩, ⟨⟨"VB", none, none⟩, some 1⟩] :
          List ApoioXi) = l1 ++ a :: l2 ∧
      a.xi_acumulado = some x ∧
      melhor_apoio_aux
          [⟨⟨"VA", none, none⟩, some 3⟩, ⟨⟨"VB", none, none⟩, some 1⟩] 0
          none = some (a, |x - 0|) ∧
      (∀ c ∈ ([⟨⟨"VA", none, none⟩, some 3⟩, ⟨⟨"VB", none, none⟩, some 1⟩] :
          List ApoioXi), ∀ y, c.xi_acumulado = some y → |x - 0| ≤ |y - 0|) ∧
      (∀ c ∈ l1, ∀ y, c.xi_acumulado = some y → |x - 0| < |y - 0|) :=
  ⟨by simp, by simp, determinar_selecao_minima _ 0 (by simp) (by simp)⟩

/-- C10: `determinar_viga_apoiada_espacial` never invents a correlation:
the result is either the all-absent quadruple, or its supported-beam
identifier and x/y position are copied from some element of the host
beam's stored candidate list; a missing host entry, an empty candidate
list, and missing host coordinates each give the all-absent quadruple. -/
theorem determinar_nao_inventa (vh : String) (xi_local : ℝ)
    (mapa : List (String × List Apoio)) (geoms : List (String × ℝ))
    (coordsH : List (String × List (ℝ × ℝ))) (vao : Option String)
    (vaos : Option (List Vao)) :
    (determinar_viga_apoiada_espacial vh xi_local mapa geoms coordsH vao
        vaos = (none, none, none, none) ∨
      ∃ a ∈ (dict_get mapa vh).getD [], ∃ w,
        determinar_viga_apoiada_espacial vh xi_local mapa geoms coordsH vao
            vaos = (some a.viga_apoiada, w, a.x, a.y)) ∧
    (dict_get mapa vh = none →
      determinar_viga_apoiada_espacial vh xi_local mapa geoms coordsH vao
          vaos = (none, none, none, none)) ∧
    (dict_get mapa vh = some [] →
      determinar_viga_apoiada_espacial vh xi_local mapa geoms coordsH vao
          vaos = (none, none, none, none)) ∧
    ((dict_get coordsH vh).getD [] = [] →
      determinar_viga_apoiada_espacial vh xi_local mapa geoms coordsH vao
          vaos = (none, none, none, none)) := by
  cases hmap : dict_get mapa vh with
  | none =>
      have hd : determinar_viga_apoiada_espacial vh xi_local mapa geoms
          coordsH vao vaos = (none, none, none, none) := by
        simp only [determinar_viga_apoiada_espacial, hmap]
      refine ⟨Or.inl hd, fun _ => hd, fun _ => hd, fun _ => hd⟩
  | some apoios =>
    cases apoios with
    | nil =>
        have hd : determinar_viga_apoiada_espacial vh xi_local mapa geoms
            coordsH vao vaos = (none, none, none, none) := by
          simp only [determinar_viga_apoiada_espacial, hmap]
        refine ⟨Or.inl hd, fun _ => hd, fun _ => hd, fun _ => hd⟩
    | cons a0 arest =>
      cases hc : (dict_get coordsH vh).getD [] with
      | nil =>
          have hd : determinar_viga_apoiada_espacial vh xi_local mapa geoms
              coordsH vao vaos = (none, none, none, none) := by
            simp only [determinar_viga_apoiada_espacial, hmap, hc]
          exact ⟨Or.inl hd, fun h => by simp at h, fun h => by simp at h,
            fun _ => hd⟩
      | cons c cs =>
          refine ⟨?_, fun h => by simp at h, fun h => by simp at h,
            fun h => by simp at h⟩
          cases hsel : melhor_apoio_aux
              (calcular_xi_acumulado_apoios (a0 :: arest) (c :: cs))
              (xi_trecho_de xi_local vao vaos) none with
          | none =>
              refine Or.inl ?_
              simp only [determinar_viga_apoiada_espacial, hmap, hc, hsel]
          | some mv =>
              rcases mv with ⟨m, d⟩
              rcases melhor_apoio_aux_mem _ _ _ _ hsel with hb | ⟨e, he, x, hx, hr⟩
              · exact absurd hb (by simp)
              · rcases List.mem_map.mp
                    (show e ∈ List.map (calc_apoio_xi (c :: cs)) (a0 :: arest)
                      from he) with ⟨orig, horig, heq⟩
                refine Or.inr ⟨orig, by simpa using horig, ?_⟩
                have hme : m = e := congrArg Prod.fst hr
                have hm : m = calc_apoio_xi (c :: cs) orig := hme.trans heq.symm
                refine ⟨(match dict_get geoms vh with
                  | some w => if w = 0 then none else some (w / 2)
                  | none => none), ?_⟩
                have hres : determinar_viga_apoiada_espacial vh xi_local mapa
                    geoms coordsH vao vaos =
                    (some m.apoio.viga_apoiada,
                      (match dict_get geoms vh with
                        | some w => if w = 0 then none else some (w / 2)
                        | none => none), m.apoio.x, m.apoio.y) := by
                  simp only [determinar_viga_apoiada_espacial, hmap, hc, hsel]
                rw [hres, hm, calc_apoio_xi_apoio]

/-- Witness for C10 at a host beam with no stored candidate entry. -/
theorem determinar_nao_inventa_witness :
    determinar_viga_apoiada_espacial "H" 0 [] [] [] none none =
      (none, none, none, none) :=
  (determinar_nao_inventa "H" 0 [] [] [] none none).2.1 rfl

/-! Claim C5: span-corrected disambiguation on the end-to-end scenario
with host nodes `[(0,0), (10,0), (20,0)]`. -/

theorem melhor_xi_H_15 :
    melhor_xi [((0:ℝ), (0:ℝ)), (10, 0), (20, 0)] (15, 0) = some (0, 15) := by
  have h1 : dist2d ((0:ℝ), (0:ℝ)) ((10:ℝ), (0:ℝ)) = 10 := by
    rw [dist2d_horiz]; norm_num
  have h2 : proj_escalar ((15:ℝ), (0:ℝ)) ((0:ℝ), (0:ℝ)) ((10:ℝ), (0:ℝ)) =
      3 / 2 := by
    rw [proj_escalar_horiz _ _ _ _ _ (by norm_num)]; norm_num
  have h3 : proj_clamp ((15:ℝ), (0:ℝ)) ((0:ℝ), (0:ℝ)) ((10:ℝ), (0:ℝ)) = 1 := by
    rw [proj_clamp, h2]; norm_num
  have h4 : ponto_proj ((15:ℝ), (0:ℝ)) ((0:ℝ), (0:ℝ)) ((10:ℝ), (0:ℝ)) =
      ((10:ℝ), (0:ℝ)) := by
    rw [ponto_proj, h3]; norm_num
  have h5 : dist_perp ((15:ℝ), (0:ℝ)) ((0:ℝ), (0:ℝ)) ((10:ℝ), (0:ℝ)) = 5 := by
    rw [dist_perp, h4, dist2d_horiz]; norm_num
  have h6 : dist2d ((10:ℝ), (0:ℝ)) ((20:ℝ), (0:ℝ)) = 10 := by
    rw [dist2d_horiz]; norm_num
  have h7 : proj_escalar ((15:ℝ), (0:ℝ)) ((10:ℝ), (0:ℝ)) ((20:ℝ), (0:ℝ)) =
      1 / 2 := by
    rw [proj_escalar_horiz _ _ _ _ _ (by norm_num)]; norm_num
  have h8 : proj_clamp ((15:ℝ), (0:ℝ)) ((10:ℝ), (0:ℝ)) ((20:ℝ), (0:ℝ)) =
      1 / 2 := by
    rw [proj_clamp, h7]; norm_num
  have h9 : ponto_proj ((15:ℝ), (0:ℝ)) ((10:ℝ), (0:ℝ)) ((20:ℝ), (0:ℝ)) =
      ((15:ℝ), (0:ℝ)) := by
    rw [ponto_proj, h8]; norm_num
  have h10 : dist_perp ((15:ℝ), (0:ℝ)) ((10:ℝ), (0:ℝ)) ((20:ℝ), (0:ℝ)) =
      0 := by
    rw [dist_perp, h9, dist2d_self]
  show melhor_xi_aux (15, 0) (0, 0) [(10, 0), (20, 0)] 0 none = some (0, 15)
  rw [melhor_xi_aux_cons _ _ _ _ _ _ (by rw [h1]; norm_num),
    atualiza_melhor_none,
    melhor_xi_aux_cons _ _ _ _ _ _ (by rw [h6]; norm_num),
    melhor_xi_aux_nil, h5, h3, h1, h6, h8, h10]
  simp only [atualiza_melhor]
  norm_num

theorem melhor_xi_H_30 :
    melhor_xi [((0:ℝ), (0:ℝ)), (10, 0), (20, 0)] (30, 0) = some (10, 20) := by
  have h1 : dist2d ((0:ℝ), (0:ℝ)) ((10:ℝ), (0:ℝ)) = 10 := by
    rw [dist2d_horiz]; norm_num
  have h2 : proj_escalar ((30:ℝ), (0:ℝ)) ((0:ℝ), (0:ℝ)) ((10:ℝ), (0:ℝ)) =
      3 := by
    rw [proj_escalar_horiz _ _ _ _ _ (by norm_num)]; norm_num
  have h3 : proj_clamp ((30:ℝ), (0:ℝ)) ((0:ℝ), (0:ℝ)) ((10:ℝ), (0:ℝ)) = 1 := by
    rw [proj_clamp, h2]; norm_num
  have h4 : ponto_proj ((30:ℝ), (0:ℝ)) ((0:ℝ), (0:ℝ)) ((10:ℝ), (0:ℝ)) =
      ((10:ℝ), (0:ℝ)) := by
    rw [ponto_proj, h3]; norm_num
  have h5 : dist_perp ((30:ℝ), (0:ℝ)) ((0:ℝ), (0:ℝ)) ((10:ℝ), (0:ℝ)) =
      20 := by
    rw [dist_perp, h4, dist2d_horiz]; norm_num
  have h6 : dist2d ((10:ℝ), (0:ℝ)) ((20:ℝ), (0:ℝ)) = 10 := by
    rw [dist2d_horiz]; norm_num
  have h7 : proj_escalar ((30:ℝ), (0:ℝ)) ((10:ℝ), (0:ℝ)) ((20:ℝ), (0:ℝ)) =
      2 := by
    rw [proj_escalar_horiz _ _ _ _ _ (by norm_num)]; norm_num
  have h8 : proj_clamp ((30:ℝ), (0:ℝ)) ((10:ℝ), (0:ℝ)) ((20:ℝ), (0:ℝ)) =
      1 := by
    rw [proj_clamp, h7]; norm_num
  have h9 : ponto_proj ((30:ℝ), (0:ℝ)) ((10:ℝ), (0:ℝ)) ((20:ℝ), (0:ℝ)) =
      ((20:ℝ), (0:ℝ)) := by
    rw [ponto_proj, h8]; norm_num
  have h10 : dist_perp ((30:ℝ), (0:ℝ)) ((10:ℝ), (0:ℝ)) ((20:ℝ), (0:ℝ)) =
      10 := by
    rw [dist_perp, h9, dist2d_horiz]; norm_num
  show melhor_xi_aux (30, 0) (0, 0) [(10, 0), (20, 0)] 0 none = some (10, 20)
  rw [melhor_xi_aux_cons _ _ _ _ _ _ (by rw [h1]; norm_num),
    atualiza_melhor_none,
    melhor_xi_aux_cons _ _ _ _ _ _ (by rw [h6]; norm_num),
    melhor_xi_aux_nil, h5, h3, h1, h6, h8, h10]
  simp only [atualiza_melhor]
  norm_num

/-- C5: with host beam `H` of nodes `[(0,0), (10,0), (20,0)]`, a validated
candidate at `(15,0)`, a demand at local Xi `5.0` inside span `"2"` whose
start offset is the cumulative sum `10.0` (span 1's length `10` plus its
right-support width `0`), disambiguation compares candidate xi against
`spanStartXi + localXi = 15` and selects the `(15,0)` candidate (difference
`0`) over ANY competitor whose resolved xi differs from 15 - whatever the
insertion order of the two candidates. -/
theorem determinar_corrige_vao_espacial (nome2 : String) (px py : ℝ)
    (hfar : 0 < |(((melhor_xi [((0:ℝ), (0:ℝ)), (10, 0), (20, 0)]
        (px, py)).map Prod.snd).getD 0) - 15|) :
    xi_trecho_de 5 (some "2") (some [⟨"1", 10, 0, 0⟩, ⟨"2", 5, 0, 0⟩]) =
        10 + 5 ∧
    determinar_viga_apoiada_espacial "H" 5
        [("H", [⟨"X", some 15, some 0⟩, ⟨nome2, some px, some py⟩])]
        [("H", 20)] [("H", [((0:ℝ), (0:ℝ)), (10, 0), (20, 0)])]
        (some "2") (some [⟨"1", 10, 0, 0⟩, ⟨"2", 5, 0, 0⟩]) =
      (some "X", some 10, some 15, some 0) ∧
    determinar_viga_apoiada_espacial "H" 5
        [("H", [⟨nome2, some px, some py⟩, ⟨"X", some 15, some 0⟩])]
        [("H", 20)] [("H", [((0:ℝ), (0:ℝ)), (10, 0), (20, 0)])]
        (some "2") (some [⟨"1", 10, 0, 0⟩, ⟨"2", 5, 0, 0⟩]) =
      (some "X", some 10, some 15, some 0) := by
  have hxt : xi_trecho_de 5 (some "2")
      (some [⟨"1", 10, 0, 0⟩, ⟨"2", 5, 0, 0⟩]) = 15 := by
    simp [xi_trecho_de, xi_acumulado_por_vao, xi_vao_go, dict_set, dict_get]
    norm_num
  have hc1 : calc_apoio_xi [((0:ℝ), (0:ℝ)), (10, 0), (20, 0)]
      ⟨"X", some 15, some 0⟩ = ⟨⟨"X", some 15, some 0⟩, some 15⟩ := by
    show (⟨⟨"X", some 15, some 0⟩,
      some (((melhor_xi [((0:ℝ), (0:ℝ)), (10, 0), (20, 0)]
        (15, 0)).map Prod.snd).getD 0)⟩ : ApoioXi) = _
    rw [melhor_xi_H_15]
    rfl
  have hc2 : calc_apoio_xi [((0:ℝ), (0:ℝ)), (10, 0), (20, 0)]
      ⟨nome2, some px, some py⟩ = ⟨⟨nome2, some px, some py⟩,
        some (((melhor_xi [((0:ℝ), (0:ℝ)), (10, 0), (20, 0)]
          (px, py)).map Prod.snd).getD 0)⟩ := rfl
  have hcal1 : calcular_xi_acumulado_apoios
      [⟨"X", some 15, some 0⟩, ⟨nome2, some px, some py⟩]
      [((0:ℝ), (0:ℝ)), (10, 0), (20, 0)] =
      [⟨⟨"X", some 15, some 0⟩, some 15⟩, ⟨⟨nome2, some px, some py⟩,
        some (((melhor_xi [((0:ℝ), (0:ℝ)), (10, 0), (20, 0)]
          (px, py)).map Prod.snd).getD 0)⟩] := by
    simp only [calcular_xi_acumulado_apoios, List.map_cons, List.map_nil,
      hc1, hc2]
  have hcal2 : calcular_xi_acumulado_apoios
      [⟨nome2, some px, some py⟩, ⟨"X", some 15, some 0⟩]
      [((0:ℝ), (0:ℝ)), (10, 0), (20, 0)] =
      [⟨⟨nome2, some px, some py⟩,
        some (((melhor_xi [((0:ℝ), (0:ℝ)), (10, 0), (20, 0)]
          (px, py)).map Prod.snd).getD 0)⟩,
        ⟨⟨"X", some 15, some 0⟩, some 15⟩] := by
    simp only [calcular_xi_acumulado_apoios, List.map_cons, List.map_nil,
      hc1, hc2]
  have e1 : |(15:ℝ) - 15| = 0 := by norm_num
  have hsel1 : melhor_apoio_aux [⟨⟨"X", some 15, some 0⟩, some 15⟩,
      ⟨⟨nome2, some px, some py⟩,
        some (((melhor_xi [((0:ℝ), (0:ℝ)), (10, 0), (20, 0)]
          (px, py)).map Prod.snd).getD 0)⟩] 15 none =
      some (⟨⟨"X", some 15, some 0⟩, some 15⟩, 0) := by
    have hno : ¬ |(((melhor_xi [((0:ℝ), (0:ℝ)), (10, 0), (20, 0)]
        (px, py)).map Prod.snd).getD 0) - 15| < |(15:ℝ) - 15| := by
      rw [e1]
      exact not_lt.mpr (abs_nonneg _)
    simp only [melhor_apoio_aux, if_neg hno]
    rw [e1]
  have hsel2 : melhor_apoio_aux [⟨⟨nome2, some px, some py⟩,
      some (((melhor_xi [((0:ℝ), (0:ℝ)), (10, 0), (20, 0)]
        (px, py)).map Prod.snd).getD 0)⟩,
      ⟨⟨"X", some 15, some 0⟩, some 15⟩] 15 none =
      some (⟨⟨"X", some 15, some 0⟩, some 15⟩, 0) := by
    have hyes : |(15:ℝ) - 15| < |(((melhor_xi [((0:ℝ), (0:ℝ)), (10, 0),
        (20, 0)] (px, py)).map Prod.snd).getD 0) - 15| := by
      rw [e1]
      exact hfar
    simp only [melhor_apoio_aux, if_pos hyes]
    rw [e1]
  have hg2 : dict_get [("H", [((0:ℝ), (0:ℝ)), (10, 0), (20, 0)])] "H" =
      some [((0:ℝ), (0:ℝ)), (10, 0), (20, 0)] := by
    simp only [dict_get, if_pos]
  have hg3 : dict_get [(("H":String), (20:ℝ))] "H" = some 20 := by
    simp only [dict_get, if_pos]
  refine ⟨by rw [hxt]; norm_num, ?_, ?_⟩
  · have hg1 : dict_get [("H", [(⟨"X", some 15, some 0⟩ : Apoio),
        ⟨nome2, some px, some py⟩])] "H" =
        some [⟨"X", some 15, some 0⟩, ⟨nome2, some px, some py⟩] := by
      simp only [dict_get, if_pos]
    simp only [determinar_viga_apoiada_espacial, hg1, hg2, hg3,
      Option.getD_some, hxt, hcal1, hsel1]
    norm_num
  · have hg1 : dict_get [("H", [(⟨nome2, some px, some py⟩ : Apoio),
        ⟨"X", some 15, some 0⟩])] "H" =
        some [⟨nome2, some px, some py⟩, ⟨"X", some 15, some 0⟩] := by
      simp only [dict_get, if_pos]
    simp only [determinar_viga_apoiada_espacial, hg1, hg2, hg3,
      Option.getD_some, hxt, hcal2, hsel2]
    norm_num

/-- Witness for C5 with the competitor at `(30, 0)` (resolved xi 20,
distance 5 from the demand position 15). -/
theorem determinar_corrige_vao_espacial_witness :
    (0 < |(((melhor_xi [((0:ℝ), (0:ℝ)), (10, 0), (20, 0)]
        (30, 0)).map Prod.snd).getD 0) - 15|) ∧
    (xi_trecho_de 5 (some "2") (some [⟨"1", 10, 0, 0⟩, ⟨"2", 5, 0, 0⟩]) =
        10 + 5 ∧
    determinar_viga_apoiada_espacial "H" 5
        [("H", [⟨"X", some 15, some 0⟩, ⟨"Y", some 30, some 0⟩])]
        [("H", 20)] [("H", [((0:ℝ), (0:ℝ)), (10, 0), (20, 0)])]
        (some "2") (some [⟨"1", 10, 0, 0⟩, ⟨"2", 5, 0, 0⟩]) =
      (some "X", some 10, some 15, some 0) ∧
    determinar_viga_apoiada_espacial "H" 5
        [("H", [⟨"Y", some 30, some 0⟩, ⟨"X", some 15, some 0⟩])]
        [("H", 20)] [("H", [((0:ℝ), (0:ℝ)), (10, 0), (20, 0)])]
        (some "2") (some [⟨"1", 10, 0, 0⟩, ⟨"2", 5, 0, 0⟩]) =
      (some "X", some 10, some 15, some 0)) :=
  ⟨by rw [melhor_xi_H_30]; norm_num,
    determinar_corrige_vao_espacial "Y" 30 0
      (by rw [melhor_xi_H_30]; norm_num)⟩

/-! Claim C2: the cross-validator's membership test. -/

theorem dict_get_validar_not_mem (r : List (String × List String))
    (H : String) :
    ∀ m : List (String × List Apoio), H ∉ m.map Prod.fst →
      dict_get (validar_apoios_cruzado m r) H = none := by
  intro m
  induction m with
  | nil => intro _; rfl
  | cons kv rest ih =>
    intro h
    rcases kv with ⟨k, vs⟩
    have hk : k ≠ H := by
      intro hk
      exact h (by simp [hk])
    have hrest : H ∉ rest.map Prod.fst := by
      intro hmem
      exact h (by simp [hmem])
    show dict_get (List.filterMap _ ((k, vs) :: rest)) H = none
    rw [List.filterMap_cons]
    cases hf : vs.filter (apoio_confirmado r k) with
    | nil => exact ih hrest
    | cons b bs =>
        show dict_get ((k, b :: bs) :: _) H = none
        simp only [dict_get, if_neg hk]
        exact ih hrest

theorem dict_get_validar (m : List (String × List Apoio))
    (r : List (String × List String)) (H : String) (cands : List Apoio)
    (hnd : (m.map Prod.fst).Nodup) (hm : (H, cands) ∈ m) :
    dict_get (validar_apoios_cruzado m r) H =
      match cands.filter (apoio_confirmado r H) with
      | [] => none
      | a :: as => some (a :: as) := by
  induction m with
  | nil => cases hm
  | cons kv rest ih =>
    rcases kv with ⟨k, vs⟩
    have hnd2 : k ∉ rest.map Prod.fst ∧ (rest.map Prod.fst).Nodup := by
      rw [List.map_cons] at hnd
      exact List.nodup_cons.mp hnd
    rcases List.mem_cons.mp hm with heq | hmem
    · have hk : k = H := congrArg Prod.fst heq.symm
      have hv : vs = cands := congrArg Prod.snd heq.symm
      subst hk
      subst hv
      show dict_get (List.filterMap _ ((k, vs) :: rest)) k = _
      rw [List.filterMap_cons]
      cases hf : vs.filter (apoio_confirmado r k) with
      | nil => exact dict_get_validar_not_mem r k rest hnd2.1
      | cons b bs =>
          show dict_get ((k, b :: bs) :: _) k = some (b :: bs)
          simp [dict_get]
    · have hk : k ≠ H := by
        intro hkH
        subst hkH
        exact hnd2.1 (List.mem_map.mpr ⟨(k, cands), hmem, rfl⟩)
      show dict_get (List.filterMap _ ((k, vs) :: rest)) H = _
      rw [List.filterMap_cons]
      cases hf : vs.filter (apoio_confirmado r k) with
      | nil => exact ih hnd2.2 hmem
      | cons b bs =>
          show dict_get ((k, b :: bs) :: _) H = _
          simp only [dict_get, if_neg hk]
          exact ih hnd2.2 hmem

/-- C2 (amended): the cross-validator keeps a candidate (host `H`,
supported `S`) if and only if the report relations for `S` list `H`
VERBATIM - `validar_apoios_cruzado` applies no suffix-variant (alias)
expansion; unconfirmed candidates are silently dropped, and a host with no
confirmed candidate disappears from the validated map.  (Alias expansion
`V..-A`/`V..-B` exists only in `encontrar_vigas_apoiadas_por_hospedeira`,
the host-search path.) -/
theorem validar_apoios_membro (m : List (String × List Apoio))
    (r : List (String × List String)) (H : String) (cands : List Apoio)
    (a : Apoio) (hnd : (m.map Prod.fst).Nodup) (hm : (H, cands) ∈ m) :
    (∃ vs, dict_get (validar_apoios_cruzado m r) H = some vs ∧ a ∈ vs) ↔
      (a ∈ cands ∧ H ∈ (dict_get r a.viga_apoiada).getD []) := by
  rw [dict_get_validar m r H cands hnd hm]
  cases hf : cands.filter (apoio_confirmado r H) with
  | nil =>
    constructor
    · rintro ⟨vs, hvs, _⟩
      cases hvs
    · rintro ⟨ha, hrel⟩
      have hmem : a ∈ cands.filter (apoio_confirmado r H) :=
        List.mem_filter.mpr ⟨ha, by simp [apoio_confirmado, hrel]⟩
      rw [hf] at hmem
      cases hmem
  | cons b bs =>
    constructor
    · rintro ⟨vs, hvs, hmem⟩
      have hvs' : vs = b :: bs := (Option.some_inj.mp hvs).symm
      subst hvs'
      have : a ∈ cands.filter (apoio_confirmado r H) := by
        rw [hf]
        exact hmem
      have h2 := List.mem_filter.mp this
      refine ⟨h2.1, ?_⟩
      have := h2.2
      simpa [apoio_confirmado] using this
    · rintro ⟨ha, hrel⟩
      refine ⟨b :: bs, rfl, ?_⟩
      have : a ∈ cands.filter (apoio_confirmado r H) :=
        List.mem_filter.mpr ⟨ha, by simp [apoio_confirmado, hrel]⟩
      rw [hf] at this
      exact this

/-- Witness for C2 (amended): candidate (host `V5`, supported `X`) with
the report listing `V5` verbatim under `X` is kept. -/
theorem validar_apoios_membro_witness :
    ((([(("V5":String), [(⟨"X", none, none⟩ : Apoio)])]).map
        Prod.fst).Nodup) ∧
    ((("V5":String), [(⟨"X", none, none⟩ : Apoio)]) ∈
      [(("V5":String), [(⟨"X", none, none⟩ : Apoio)])]) ∧
    ((∃ vs, dict_get (validar_apoios_cruzado
          [("V5", [⟨"X", none, none⟩])] [("X", ["V5"])]) "V5" = some vs ∧
        (⟨"X", none, none⟩ : Apoio) ∈ vs) ↔
      ((⟨"X", none, none⟩ : Apoio) ∈ [(⟨"X", none, none⟩ : Apoio)] ∧
        "V5" ∈ (dict_get [("X", ["V5"])]
          (Apoio.viga_apoiada ⟨"X", none, none⟩)).getD [])) :=
  ⟨by simp, by simp,
    validar_apoios_membro _ _ _ _ _ (by simp) (by simp)⟩

/-- C2 counterexample: the report lists only the alias `V10-A` under `X`;
the claim says the candidate (host `V10`, supported `X`) is then
confirmed, but `validar_apoios_cruzado` discards it (empty output map). -/
theorem validar_ignora_alias_ce :
    validar_apoios_cruzado [("V10", [⟨"X", none, none⟩])]
        [("X", ["V10-A"])] = [] ∧
    "V10-A" ∈ (dict_get [(("X":String), ["V10-A"])] "X").getD [] := by
  constructor
  · rfl
  · simp [dict_get]

/-! Claim C8: tolerance of the shear-block value extractor. -/

theorem mapear_colunas_keys (cab : List Char) (mp : List (List Char × ℕ × ℕ))
    (h : mapear_colunas_cisalhamento cab = some mp) :
    mp.map (fun e => e.1) = [col_Aswmin, col_AswCT, col_AsTrt, col_AsSus] := by
  unfold mapear_colunas_cisalhamento at h
  cases h1 : py_find col_Aswmin cab with
  | none => rw [h1] at h; cases h
  | some i1 =>
    cases h2 : py_find col_AswCT cab with
    | none => rw [h1, h2] at h; cases h
    | some i2 =>
      cases h3 : py_find col_AsTrt cab with
      | none => rw [h1, h2, h3] at h; cases h
      | some i3 =>
        cases h4 : py_find col_AsSus cab with
        | none => rw [h1, h2, h3, h4] at h; cases h
        | some i4 =>
          rw [h1, h2, h3, h4] at h
          cases h
          rfl

theorem get_token_value_Aswmin (tokens : List (List Char)) :
    get_token_value [col_Aswmin, col_AswCT, col_AsTrt, col_AsSus] tokens
        col_Aswmin =
      if tokens.length ≤ 7 then 0
      else (py_float (tokens.getD 7 [])).getD 0 := by
  have hidx : cabecalho_completo.indexOf col_Aswmin = 7 := by decide
  unfold get_token_value
  rw [if_pos (by decide), hidx]

theorem get_token_value_AswCT (tokens : List (List Char)) :
    get_token_value [col_Aswmin, col_AswCT, col_AsTrt, col_AsSus] tokens
        col_AswCT =
      if tokens.length ≤ 8 then 0
      else (py_float (tokens.getD 8 [])).getD 0 := by
  have hidx : cabecalho_completo.indexOf col_AswCT = 8 := by decide
  unfold get_token_value
  rw [if_pos (by decide), hidx]

theorem get_token_value_AsTrt (tokens : List (List Char)) :
    get_token_value [col_Aswmin, col_AswCT, col_AsTrt, col_AsSus] tokens
        col_AsTrt =
      if tokens.length ≤ 12 then 0
      else (py_float (tokens.getD 12 [])).getD 0 := by
  have hidx : cabecalho_completo.indexOf col_AsTrt = 12 := by decide
  unfold get_token_value
  rw [if_pos (by decide), hidx]

theorem get_token_value_AsSus (tokens : List (List Char)) :
    get_token_value [col_Aswmin, col_AswCT, col_AsTrt, col_AsSus] tokens
        col_AsSus =
      if tokens.length ≤ 13 then 0
      else (py_float (tokens.getD 13 [])).getD 0 := by
  have hidx : cabecalho_completo.indexOf col_AsSus = 13 := by decide
  unfold get_token_value
  rw [if_pos (by decide), hidx]

theorem extrair_canon_nil (linha : List Char)
    (mp : List (List Char × ℕ × ℕ)) (ht : tokens_de linha = []) :
    extrair_valores_por_posicao linha (some mp) = none := by
  simp only [extrair_valores_por_posicao, ht]

theorem extrair_canon_none (linha : List Char)
    (mp : List (List Char × ℕ × ℕ)) (t0 : List Char) (ts : List (List Char))
    (ht : tokens_de linha = t0 :: ts)
    (hxi : py_float (xi_token t0) = none) :
    extrair_valores_por_posicao linha (some mp) = none := by
  simp only [extrair_valores_por_posicao, ht, hxi]

theorem extrair_canon_some (linha : List Char)
    (mp : List (List Char × ℕ × ℕ))
    (hk : mp.map (fun e => e.1) =
      [col_Aswmin, col_AswCT, col_AsTrt, col_AsSus])
    (t0 : List Char) (ts : List (List Char)) (q : ℚ)
    (ht : tokens_de linha = t0 :: ts)
    (hxi : py_float (xi_token t0) = some q) :
    extrair_valores_por_posicao linha (some mp) =
      some { xi := q
             aswmin := if (t0 :: ts).length ≤ 7 then 0
               else (py_float ((t0 :: ts).getD 7 [])).getD 0
             asw_ct := if (t0 :: ts).length ≤ 8 then 0
               else (py_float ((t0 :: ts).getD 8 [])).getD 0
             astrt := if (t0 :: ts).length ≤ 12 then 0
               else (py_float ((t0 :: ts).getD 12 [])).getD 0
             assus := if (t0 :: ts).length ≤ 13 then 0
               else (py_float ((t0 :: ts).getD 13 [])).getD 0 } := by
  simp only [extrair_valores_por_posicao, ht, hxi, hk]
  rw [get_token_value_Aswmin, get_token_value_AswCT,
    get_token_value_AsTrt, get_token_value_AsSus]

theorem if_col_zero (n : ℕ) (tokens : List (List Char))
    (h : tokens.length ≤ n ∨ py_float (tokens.getD n []) = none) :
    (if tokens.length ≤ n then (0:ℚ)
      else (py_float (tokens.getD n [])).getD 0) = 0 := by
  rcases h with h | h
  · rw [if_pos h]
  · by_cases hl : tokens.length ≤ n
    · rw [if_pos hl]
    · rw [if_neg hl, h]
      rfl

/-- C8: whenever the header map exists (all four columns of interest
located, in whatever order), the extracted values do not depend on the
header layout at all; each of the four values defaults to `0.0` when its
token is missing from the data line or not numeric; and the extraction of
a line never fails because of one of those four values - it returns a
record whenever the line has tokens and its `Xi` token is numeric. -/
theorem extrair_valores_tolerante (cab1 cab2 : List Char)
    (mp1 mp2 : List (List Char × ℕ × ℕ)) (linha : List Char)
    (hm1 : mapear_colunas_cisalhamento cab1 = some mp1)
    (hm2 : mapear_colunas_cisalhamento cab2 = some mp2) :
    (extrair_valores_por_posicao linha (some mp1) =
      extrair_valores_por_posicao linha (some mp2)) ∧
    (∀ d, extrair_valores_por_posicao linha (some mp1) = some d →
      ((tokens_de linha).length ≤ 7 ∨
          py_float ((tokens_de linha).getD 7 []) = none → d.aswmin = 0) ∧
      ((tokens_de linha).length ≤ 8 ∨
          py_float ((tokens_de linha).getD 8 []) = none → d.asw_ct = 0) ∧
      ((tokens_de linha).length ≤ 12 ∨
          py_float ((tokens_de linha).getD 12 []) = none → d.astrt = 0) ∧
      ((tokens_de linha).length ≤ 13 ∨
          py_float ((tokens_de linha).getD 13 []) = none → d.assus = 0)) ∧
    (∀ t0 ts, tokens_de linha = t0 :: ts →
      py_float (xi_token t0) ≠ none →
      extrair_valores_por_posicao linha (some mp1) ≠ none) := by
  have hk1 := mapear_colunas_keys cab1 mp1 hm1
  have hk2 := mapear_colunas_keys cab2 mp2 hm2
  have heq : extrair_valores_por_posicao linha (some mp1) =
      extrair_valores_por_posicao linha (some mp2) := by
    cases ht : tokens_de linha with
    | nil => rw [extrair_canon_nil linha mp1 ht, extrair_canon_nil linha mp2 ht]
    | cons t0 ts =>
      cases hxi : py_float (xi_token t0) with
      | none =>
          rw [extrair_canon_none linha mp1 t0 ts ht hxi,
            extrair_canon_none linha mp2 t0 ts ht hxi]
      | some q =>
          rw [extrair_canon_some linha mp1 hk1 t0 ts q ht hxi,
            extrair_canon_some linha mp2 hk2 t0 ts q ht hxi]
  refine ⟨heq, ?_, ?_⟩
  · intro d hd
    cases ht : tokens_de linha with
    | nil =>
        rw [extrair_canon_nil linha mp1 ht] at hd
        cases hd
    | cons t0 ts =>
      cases hxi : py_float (xi_token t0) with
      | none =>
          rw [extrair_canon_none linha mp1 t0 ts ht hxi] at hd
          cases hd
      | some q =>
          rw [extrair_canon_some linha mp1 hk1 t0 ts q ht hxi] at hd
          have hd' := (Option.some_inj.mp hd).symm
          subst hd'
          refine ⟨?_, ?_, ?_, ?_⟩ <;> intro habs <;>
            exact if_col_zero _ _ habs
  · intro t0 ts ht hq
    cases hxi : py_float (xi_token t0) with
    | none => exact absurd hxi hq
    | some q =>
        rw [extrair_canon_some linha mp1 hk1 t0 ts q ht hxi]
        simp

/-- Witness for C8: two headers with the four columns in opposite orders
and the short data line `7.5 1 2` (all four value tokens absent). -/
theorem extrair_valores_tolerante_witness :
    mapear_colunas_cisalhamento ("Aswmin Asw[C+T] AsTrt AsSus".toList) =
      some [(col_Aswmin, 0, 6), (col_AswCT, 7, 15), (col_AsTrt, 16, 21),
        (col_AsSus, 22, 27)] ∧
    mapear_colunas_cisalhamento ("AsSus AsTrt Asw[C+T] Aswmin".toList) =
      some [(col_Aswmin, 21, 27), (col_AswCT, 12, 20), (col_AsTrt, 6, 11),
        (col_AsSus, 0, 5)] ∧
    ((extrair_valores_por_posicao ("7.5 1 2".toList)
        (some [(col_Aswmin, 0, 6), (col_AswCT, 7, 15), (col_AsTrt, 16, 21),
          (col_AsSus, 22, 27)]) =
      extrair_valores_por_posicao ("7.5 1 2".toList)
        (some [(col_Aswmin, 21, 27), (col_AswCT, 12, 20), (col_AsTrt, 6, 11),
          (col_AsSus, 0, 5)])) ∧
    (∀ d, extrair_valores_por_posicao ("7.5 1 2".toList)
        (some [(col_Aswmin, 0, 6), (col_AswCT, 7, 15), (col_AsTrt, 16, 21),
          (col_AsSus, 22, 27)]) = some d →
      ((tokens_de ("7.5 1 2".toList)).length ≤ 7 ∨
          py_float ((tokens_de ("7.5 1 2".toList)).getD 7 []) = none →
          d.aswmin = 0) ∧
      ((tokens_de ("7.5 1 2".toList)).length ≤ 8 ∨
          py_float ((tokens_de ("7.5 1 2".toList)).getD 8 []) = none →
          d.asw_ct = 0) ∧
      ((tokens_de ("7.5 1 2".toList)).length ≤ 12 ∨
          py_float ((tokens_de ("7.5 1 2".toList)).getD 12 []) = none →
          d.astrt = 0) ∧
      ((tokens_de ("7.5 1 2".toList)).length ≤ 13 ∨
          py_float ((tokens_de ("7.5 1 2".toList)).getD 13 []) = none →
          d.assus = 0)) ∧
    (∀ t0 ts, tokens_de ("7.5 1 2".toList) = t0 :: ts →
      py_float (xi_token t0) ≠ none →
      extrair_valores_por_posicao ("7.5 1 2".toList)
        (some [(col_Aswmin, 0, 6), (col_AswCT, 7, 15), (col_AsTrt, 16, 21),
          (col_AsSus, 22, 27)]) ≠ none)) :=
  ⟨by decide, by decide,
    extrair_valores_tolerante ("Aswmin Asw[C+T] AsTrt AsSus".toList)
      ("AsSus AsTrt Asw[C+T] Aswmin".toList)
      [(col_Aswmin, 0, 6), (col_AswCT, 7, 15), (col_AsTrt, 16, 21),
        (col_AsSus, 22, 27)]
      [(col_Aswmin, 21, 27), (col_AswCT, 12, 20), (col_AsTrt, 6, 11),
        (col_AsSus, 0, 5)]
      ("7.5 1 2".toList) (by decide) (by decide)⟩

/-! Claim C4: the candidate aggregator of `mapear_apoios_vigas`. -/

theorem dict_get_dict_set_self {α : Type} (m : List (String × α))
    (k : String) (v : α) : dict_get (dict_set m k v) k = some v := by
  induction m with
  | nil => simp [dict_set, dict_get]
  | cons kv rest ih =>
    rcases kv with ⟨k', v'⟩
    by_cases hk : k' = k
    · subst hk
      simp [dict_set, dict_get]
    · simp [dict_set, dict_get, hk, ih]

theorem getLastD_irrel {α : Type} :
    ∀ (l : List α), l ≠ [] → ∀ (d1 d2 : α), l.getLastD d1 = l.getLastD d2 := by
  intro l
  induction l with
  | nil => intro h; exact absurd rfl h
  | cons a t ih =>
    intro _ d1 d2
    cases t with
    | nil => rfl
    | cons b t2 =>
        have h1 : (a :: b :: t2).getLastD d1 = (b :: t2).getLastD a := by
          rw [List.getLastD_cons]
        have h2 : (a :: b :: t2).getLastD d2 = (b :: t2).getLastD a := by
          rw [List.getLastD_cons]
        rw [h1, h2]

theorem testa_segs_val (identB : String) (coordsB : List (ℝ × ℝ))
    (p : ℝ × ℝ) :
    ∀ (segs : List ((ℝ × ℝ) × (ℝ × ℝ))) (ap : ApoioTQS),
    testa_segs identB coordsB p segs = some ap →
    ap = ⟨identB, p.1, p.2,
      if classifica_morre_no_segmento p coordsB NO_END_TOL_CM then 2
      else 0⟩ := by
  intro segs
  induction segs with
  | nil =>
    intro ap h
    cases h
  | cons se rest ih =>
    intro ap h
    rcases se with ⟨s, e⟩
    by_cases hc : (ponto_no_segmento p s e DIST_TOL_CM).1 = true
    · simp only [testa_segs, hc, if_pos] at h
      exact (Option.some_inj.mp h).symm
    · simp only [testa_segs, hc, if_neg, if_false] at h
      exact ih ap h

theorem busca_nil (idxA : ℕ) (identA : String) (p : ℝ × ℝ)
    (m : List (String × ApoioTQS)) :
    busca_hospedeira [] idxA identA p m = m :=
  rfl

theorem busca_cons_skip (j : ℕ) (vb : VigaTQS) (rest : List (ℕ × VigaTQS))
    (idxA : ℕ) (identA : String) (p : ℝ × ℝ)
    (m : List (String × ApoioTQS)) (h : j = idxA) :
    busca_hospedeira ((j, vb) :: rest) idxA identA p m =
      busca_hospedeira rest idxA identA p m := by
  simp [busca_hospedeira, h]

theorem busca_cons_found (j : ℕ) (vb : VigaTQS) (rest : List (ℕ × VigaTQS))
    (idxA : ℕ) (identA : String) (p : ℝ × ℝ)
    (m : List (String × ApoioTQS)) (ap : ApoioTQS) (h : ¬ j = idxA)
    (ht : testa_segs vb.ident vb.coords p (segmentos vb.coords) = some ap) :
    busca_hospedeira ((j, vb) :: rest) idxA identA p m =
      dict_set m identA ap := by
  simp [busca_hospedeira, h, ht, dict_get_dict_set_self]

theorem busca_cons_miss (j : ℕ) (vb : VigaTQS) (rest : List (ℕ × VigaTQS))
    (idxA : ℕ) (identA : String) (p : ℝ × ℝ)
    (m : List (String × ApoioTQS)) (h : ¬ j = idxA)
    (ht : testa_segs vb.ident vb.coords p (segmentos vb.coords) = none)
    (hm : dict_get m identA = none) :
    busca_hospedeira ((j, vb) :: rest) idxA identA p m =
      busca_hospedeira rest idxA identA p m := by
  simp [busca_hospedeira, h, ht, hm]

theorem testa_A_1 :
    testa_segs "VA" [((6:ℝ), (0:ℝ)), (21, 0)] ((1:ℝ), (0:ℝ))
      (segmentos [((6:ℝ), (0:ℝ)), (21, 0)]) = none := by
  have hpe : proj_escalar ((1:ℝ), (0:ℝ)) ((6:ℝ), (0:ℝ)) ((21:ℝ), (0:ℝ)) =
      -(1 / 3) := by
    rw [proj_escalar_horiz _ _ _ _ _ (by norm_num)]
    norm_num
  have hin : tqs_point_in_segment ((6:ℝ), (0:ℝ)) ((21:ℝ), (0:ℝ))
      ((1:ℝ), (0:ℝ)) = false := by
    unfold tqs_point_in_segment
    exact decide_eq_false (by rw [hpe]; intro h; linarith [h.1])
  have hok : (ponto_no_segmento ((1:ℝ), (0:ℝ)) ((6:ℝ), (0:ℝ))
      ((21:ℝ), (0:ℝ)) DIST_TOL_CM).1 = false := by
    show (tqs_point_in_segment _ _ _ && _) = false
    rw [hin, Bool.false_and]
  rw [show segmentos [((6:ℝ), (0:ℝ)), (21, 0)] =
    [(((6:ℝ), (0:ℝ)), ((21:ℝ), (0:ℝ)))] from rfl]
  simp only [testa_segs, hok]
  rw [if_neg (by simp)]

theorem testa_A_31 :
    testa_segs "VA" [((6:ℝ), (0:ℝ)), (21, 0)] ((31:ℝ), (0:ℝ))
      (segmentos [((6:ℝ), (0:ℝ)), (21, 0)]) = none := by
  have hpe : proj_escalar ((31:ℝ), (0:ℝ)) ((6:ℝ), (0:ℝ)) ((21:ℝ), (0:ℝ)) =
      5 / 3 := by
    rw [proj_escalar_horiz _ _ _ _ _ (by norm_num)]
    norm_num
  have hin : tqs_point_in_segment ((6:ℝ), (0:ℝ)) ((21:ℝ), (0:ℝ))
      ((31:ℝ), (0:ℝ)) = false := by
    unfold tqs_point_in_segment
    exact decide_eq_false (by rw [hpe]; intro h; linarith [h.2])
  have hok : (ponto_no_segmento ((31:ℝ), (0:ℝ)) ((6:ℝ), (0:ℝ))
      ((21:ℝ), (0:ℝ)) DIST_TOL_CM).1 = false := by
    show (tqs_point_in_segment _ _ _ && _) = false
    rw [hin, Bool.false_and]
  rw [show segmentos [((6:ℝ), (0:ℝ)), (21, 0)] =
    [(((6:ℝ), (0:ℝ)), ((21:ℝ), (0:ℝ)))] from rfl]
  simp only [testa_segs, hok]
  rw [if_neg (by simp)]

theorem testa_B_6 :
    testa_segs "VB" [((1:ℝ), (0:ℝ)), (31, 0)] ((6:ℝ), (0:ℝ))
      (segmentos [((1:ℝ), (0:ℝ)), (31, 0)]) =
      some ⟨"VB", 6, 0, 2⟩ := by
  have hpe : proj_escalar ((6:ℝ), (0:ℝ)) ((1:ℝ), (0:ℝ)) ((31:ℝ), (0:ℝ)) =
      1 / 6 := by
    rw [proj_escalar_horiz _ _ _ _ _ (by norm_num)]
    norm_num
  have hin : tqs_point_in_segment ((1:ℝ), (0:ℝ)) ((31:ℝ), (0:ℝ))
      ((6:ℝ), (0:ℝ)) = true := by
    unfold tqs_point_in_segment
    exact decide_eq_true (by rw [hpe]; norm_num)
  have hproj : tqs_projection ((1:ℝ), (0:ℝ)) ((31:ℝ), (0:ℝ))
      ((6:ℝ), (0:ℝ)) = ((6:ℝ), (0:ℝ)) := by
    rw [tqs_projection, hpe]
    norm_num
  have hok : (ponto_no_segmento ((6:ℝ), (0:ℝ)) ((1:ℝ), (0:ℝ))
      ((31:ℝ), (0:ℝ)) DIST_TOL_CM).1 = true := by
    show (tqs_point_in_segment _ _ _ &&
      decide (dist2d _ (tqs_projection _ _ _) ≤ DIST_TOL_CM)) = true
    rw [hin, hproj, Bool.true_and]
    exact decide_eq_true (by rw [dist2d_self]; norm_num [DIST_TOL_CM])
  have hdh : dist2d ((6:ℝ), (0:ℝ)) ((1:ℝ), (0:ℝ)) = 5 := by
    rw [dist2d_horiz, abs_of_nonpos (by norm_num)]
    norm_num
  have hdl : dist2d ((6:ℝ), (0:ℝ)) ((31:ℝ), (0:ℝ)) = 25 := by
    rw [dist2d_horiz, abs_of_nonneg (by norm_num)]
    norm_num
  have hmorre : classifica_morre_no_segmento ((6:ℝ), (0:ℝ))
      [((1:ℝ), (0:ℝ)), (31, 0)] NO_END_TOL_CM = true := by
    unfold classifica_morre_no_segmento
    rw [show List.headD [((1:ℝ), (0:ℝ)), (31, 0)] (0, 0) =
        ((1:ℝ), (0:ℝ)) from rfl,
      show List.getLastD [((1:ℝ), (0:ℝ)), (31, 0)] (0, 0) =
        ((31:ℝ), (0:ℝ)) from rfl, hdh, hdl]
    rw [if_neg (by norm_num [NO_END_TOL_CM])]
  rw [show segmentos [((1:ℝ), (0:ℝ)), (31, 0)] =
    [(((1:ℝ), (0:ℝ)), ((31:ℝ), (0:ℝ)))] from rfl]
  simp only [testa_segs, hok]
  rw [if_pos trivial, hmorre]
  rfl

theorem testa_B_21 :
    testa_segs "VB" [((1:ℝ), (0:ℝ)), (31, 0)] ((21:ℝ), (0:ℝ))
      (segmentos [((1:ℝ), (0:ℝ)), (31, 0)]) =
      some ⟨"VB", 21, 0, 2⟩ := by
  have hpe : proj_escalar ((21:ℝ), (0:ℝ)) ((1:ℝ), (0:ℝ)) ((31:ℝ), (0:ℝ)) =
      2 / 3 := by
    rw [proj_escalar_horiz _ _ _ _ _ (by norm_num)]
    norm_num
  have hin : tqs_point_in_segment ((1:ℝ), (0:ℝ)) ((31:ℝ), (0:ℝ))
      ((21:ℝ), (0:ℝ)) = true := by
    unfold tqs_point_in_segment
    exact decide_eq_true (by rw [hpe]; norm_num)
  have hproj : tqs_projection ((1:ℝ), (0:ℝ)) ((31:ℝ), (0:ℝ))
      ((21:ℝ), (0:ℝ)) = ((21:ℝ), (0:ℝ)) := by
    rw [tqs_projection, hpe]
    norm_num
  have hok : (ponto_no_segmento ((21:ℝ), (0:ℝ)) ((1:ℝ), (0:ℝ))
      ((31:ℝ), (0:ℝ)) DIST_TOL_CM).1 = true := by
    show (tqs_point_in_segment _ _ _ &&
      decide (dist2d _ (tqs_projection _ _ _) ≤ DIST_TOL_CM)) = true
    rw [hin, hproj, Bool.true_and]
    exact decide_eq_true (by rw [dist2d_self]; norm_num [DIST_TOL_CM])
  have hdh : dist2d ((21:ℝ), (0:ℝ)) ((1:ℝ), (0:ℝ)) = 20 := by
    rw [dist2d_horiz, abs_of_nonpos (by norm_num)]
    norm_num
  have hdl : dist2d ((21:ℝ), (0:ℝ)) ((31:ℝ), (0:ℝ)) = 10 := by
    rw [dist2d_horiz, abs_of_nonneg (by norm_num)]
    norm_num
  have hmorre : classifica_morre_no_segmento ((21:ℝ), (0:ℝ))
      [((1:ℝ), (0:ℝ)), (31, 0)] NO_END_TOL_CM = true := by
    unfold classifica_morre_no_segmento
    rw [show List.headD [((1:ℝ), (0:ℝ)), (31, 0)] (0, 0) =
        ((1:ℝ), (0:ℝ)) from rfl,
      show List.getLastD [((1:ℝ), (0:ℝ)), (31, 0)] (0, 0) =
        ((31:ℝ), (0:ℝ)) from rfl, hdh, hdl]
    rw [if_neg (by norm_num [NO_END_TOL_CM])]
  rw [show segmentos [((1:ℝ), (0:ℝ)), (31, 0)] =
    [(((1:ℝ), (0:ℝ)), ((31:ℝ), (0:ℝ)))] from rfl]
  simp only [testa_segs, hok]
  rw [if_pos trivial, hmorre]
  rfl

/-- C4 counterexample: beam `VA` rests on `VB` at both of its nodes,
`(6,0)` and `(21,0)`.  The aggregator's output holds the LAST detection
`(21,0)` - the first occurrence `(6,0)` is overwritten, where the claim
says the first occurrence is kept. -/
theorem mapear_mantem_ultima_ocorrencia_ce :
    mapear_apoios_vigas [⟨"VB", [((1:ℝ), (0:ℝ)), (31, 0)]⟩,
        ⟨"VA", [((6:ℝ), (0:ℝ)), (21, 0)]⟩] =
      [("VA", ⟨"VB", 21, 0, 2⟩)] ∧ (21:ℝ) ≠ 6 := by
  have hB1 : busca_hospedeira [(0, ⟨"VB", [((1:ℝ), (0:ℝ)), (31, 0)]⟩),
      (1, ⟨"VA", [((6:ℝ), (0:ℝ)), (21, 0)]⟩)] 0 "VB" ((1:ℝ), (0:ℝ)) [] =
      [] := by
    rw [busca_cons_skip _ _ _ _ _ _ _ rfl,
      busca_cons_miss _ _ _ _ _ _ _ (by decide) testa_A_1
        (show dict_get ([] : List (String × ApoioTQS)) "VB" = none
          from rfl), busca_nil]
  have hB2 : busca_hospedeira [(0, ⟨"VB", [((1:ℝ), (0:ℝ)), (31, 0)]⟩),
      (1, ⟨"VA", [((6:ℝ), (0:ℝ)), (21, 0)]⟩)] 0 "VB" ((31:ℝ), (0:ℝ)) [] =
      [] := by
    rw [busca_cons_skip _ _ _ _ _ _ _ rfl,
      busca_cons_miss _ _ _ _ _ _ _ (by decide) testa_A_31
        (show dict_get ([] : List (String × ApoioTQS)) "VB" = none
          from rfl), busca_nil]
  have hA1 : busca_hospedeira [(0, ⟨"VB", [((1:ℝ), (0:ℝ)), (31, 0)]⟩),
      (1, ⟨"VA", [((6:ℝ), (0:ℝ)), (21, 0)]⟩)] 1 "VA" ((6:ℝ), (0:ℝ)) [] =
      [("VA", ⟨"VB", 6, 0, 2⟩)] := by
    rw [busca_cons_found _ _ _ _ _ _ _ _ (by decide) testa_B_6]
    rfl
  have hA2 : busca_hospedeira [(0, ⟨"VB", [((1:ℝ), (0:ℝ)), (31, 0)]⟩),
      (1, ⟨"VA", [((6:ℝ), (0:ℝ)), (21, 0)]⟩)] 1 "VA" ((21:ℝ), (0:ℝ))
      [("VA", ⟨"VB", 6, 0, 2⟩)] = [("VA", ⟨"VB", 21, 0, 2⟩)] := by
    rw [busca_cons_found _ _ _ _ _ _ _ _ (by decide) testa_B_21]
    rfl
  have hunfold : mapear_apoios_vigas [⟨"VB", [((1:ℝ), (0:ℝ)), (31, 0)]⟩,
      ⟨"VA", [((6:ℝ), (0:ℝ)), (21, 0)]⟩] =
      busca_hospedeira [(0, ⟨"VB", [((1:ℝ), (0:ℝ)), (31, 0)]⟩),
        (1, ⟨"VA", [((6:ℝ), (0:ℝ)), (21, 0)]⟩)] 1 "VA" ((21:ℝ), (0:ℝ))
        (busca_hospedeira [(0, ⟨"VB", [((1:ℝ), (0:ℝ)), (31, 0)]⟩),
          (1, ⟨"VA", [((6:ℝ), (0:ℝ)), (21, 0)]⟩)] 1 "VA" ((6:ℝ), (0:ℝ))
          (busca_hospedeira [(0, ⟨"VB", [((1:ℝ), (0:ℝ)), (31, 0)]⟩),
            (1, ⟨"VA", [((6:ℝ), (0:ℝ)), (21, 0)]⟩)] 0 "VB" ((31:ℝ), (0:ℝ))
            (busca_hospedeira [(0, ⟨"VB", [((1:ℝ), (0:ℝ)), (31, 0)]⟩),
              (1, ⟨"VA", [((6:ℝ), (0:ℝ)), (21, 0)]⟩)] 0 "VB"
              ((1:ℝ), (0:ℝ)) []))) := rfl
  constructor
  · rw [hunfold, hB1, hB2, hA1, hA2]
  · norm_num

/-- C4 (amended): the aggregator deduplicates by the SUPPORTED beam's
identifier alone, and when the same (host, supported) pair is detected at
several nodes of the supported beam, the LAST detection overwrites the
earlier ones: with beams `[B, A]` where every node of `A` lies on a
segment of `B` within tolerance, the stored assertion carries the
coordinates of `A`'s last node. -/
theorem mapear_mantem_ultima_ocorrencia (B A : VigaTQS)
    (hnodes : A.coords ≠ [])
    (hall : ∀ p ∈ A.coords,
      ∃ ap, testa_segs B.ident B.coords p (segmentos B.coords) = some ap) :
    dict_get (mapear_apoios_vigas [B, A]) A.ident =
      some ⟨B.ident, (A.coords.getLastD (0, 0)).1,
        (A.coords.getLastD (0, 0)).2,
        if classifica_morre_no_segmento (A.coords.getLastD (0, 0)) B.coords
            NO_END_TOL_CM then 2 else 0⟩ := by
  have hbusca : ∀ p ∈ A.coords, ∀ m : List (String × ApoioTQS),
      busca_hospedeira (([B, A] : List VigaTQS).enum) 1 A.ident p m =
        dict_set m A.ident ⟨B.ident, p.1, p.2,
          if classifica_morre_no_segmento p B.coords NO_END_TOL_CM then 2
          else 0⟩ := by
    intro p hp m
    rcases hall p hp with ⟨ap, hap⟩
    have hval := testa_segs_val B.ident B.coords p _ ap hap
    rw [hval] at hap
    rw [show (([B, A] : List VigaTQS).enum) = [(0, B), (1, A)] from rfl]
    exact busca_cons_found _ _ _ _ _ _ _ _ (by decide) hap
  have hfold : ∀ (l : List (ℝ × ℝ)), l ≠ [] →
      (∀ p ∈ l, p ∈ A.coords) → ∀ m : List (String × ApoioTQS),
      dict_get (l.foldl (fun m2 p =>
        busca_hospedeira (([B, A] : List VigaTQS).enum) 1 A.ident p m2) m)
        A.ident =
      some ⟨B.ident, (l.getLastD (0, 0)).1, (l.getLastD (0, 0)).2,
        if classifica_morre_no_segmento (l.getLastD (0, 0)) B.coords
            NO_END_TOL_CM then 2 else 0⟩ := by
    intro l
    induction l with
    | nil => intro h; exact absurd rfl h
    | cons p rest ih =>
      intro _ hsub m
      cases rest with
      | nil =>
          rw [List.foldl_cons, List.foldl_nil,
            hbusca p (hsub p (by simp)) m, dict_get_dict_set_self]
          rfl
      | cons q rest2 =>
          rw [List.foldl_cons]
          have hsub' : ∀ r ∈ q :: rest2, r ∈ A.coords := by
            intro r hr
            exact hsub r (List.mem_cons_of_mem _ hr)
          have hlast : (p :: q :: rest2).getLastD ((0:ℝ), (0:ℝ)) =
              (q :: rest2).getLastD ((0:ℝ), (0:ℝ)) := by
            rw [List.getLastD_cons]
            exact getLastD_irrel _ (by simp) _ _
          rw [hlast]
          exact ih (by simp) hsub' _
  have hunfold : mapear_apoios_vigas [B, A] =
      A.coords.foldl (fun m2 p =>
        busca_hospedeira (([B, A] : List VigaTQS).enum) 1 A.ident p m2)
        (B.coords.foldl (fun m2 p =>
          busca_hospedeira (([B, A] : List VigaTQS).enum) 0 B.ident p m2)
          []) := rfl
  rw [hunfold]
  exact hfold A.coords hnodes (fun p hp => hp) _

/-- Witness for C4 (amended) on the two concrete beams of the
counterexample. -/
theorem mapear_mantem_ultima_ocorrencia_witness :
    ((⟨"VA", [((6:ℝ), (0:ℝ)), (21, 0)]⟩ : VigaTQS).coords ≠ []) ∧
    (∀ p ∈ (⟨"VA", [((6:ℝ), (0:ℝ)), (21, 0)]⟩ : VigaTQS).coords,
      ∃ ap, testa_segs (VigaTQS.ident ⟨"VB", [((1:ℝ), (0:ℝ)), (31, 0)]⟩)
        (VigaTQS.coords ⟨"VB", [((1:ℝ), (0:ℝ)), (31, 0)]⟩) p
        (segmentos (VigaTQS.coords ⟨"VB", [((1:ℝ), (0:ℝ)), (31, 0)]⟩)) =
        some ap) ∧
    dict_get (mapear_apoios_vigas [⟨"VB", [((1:ℝ), (0:ℝ)), (31, 0)]⟩,
        ⟨"VA", [((6:ℝ), (0:ℝ)), (21, 0)]⟩])
      (VigaTQS.ident ⟨"VA", [((6:ℝ), (0:ℝ)), (21, 0)]⟩) =
      some ⟨VigaTQS.ident ⟨"VB", [((1:ℝ), (0:ℝ)), (31, 0)]⟩,
        (((⟨"VA", [((6:ℝ), (0:ℝ)), (21, 0)]⟩ :
          VigaTQS).coords).getLastD (0, 0)).1,
        (((⟨"VA", [((6:ℝ), (0:ℝ)), (21, 0)]⟩ :
          VigaTQS).coords).getLastD (0, 0)).2,
        if classifica_morre_no_segmento
            (((⟨"VA", [((6:ℝ), (0:ℝ)), (21, 0)]⟩ :
              VigaTQS).coords).getLastD (0, 0))
            (VigaTQS.coords ⟨"VB", [((1:ℝ), (0:ℝ)), (31, 0)]⟩)
            NO_END_TOL_CM then 2 else 0⟩ := by
  have hall : ∀ p ∈ (⟨"VA", [((6:ℝ), (0:ℝ)), (21, 0)]⟩ : VigaTQS).coords,
      ∃ ap, testa_segs (VigaTQS.ident ⟨"VB", [((1:ℝ), (0:ℝ)), (31, 0)]⟩)
        (VigaTQS.coords ⟨"VB", [((1:ℝ), (0:ℝ)), (31, 0)]⟩) p
        (segmentos (VigaTQS.coords ⟨"VB", [((1:ℝ), (0:ℝ)), (31, 0)]⟩)) =
        some ap := by
    intro p hp
    rcases List.mem_cons.mp hp with rfl | hp2
    · exact ⟨_, testa_B_6⟩
    · rcases List.mem_cons.mp hp2 with rfl | hp3
      · exact ⟨_, testa_B_21⟩
      · cases hp3
  exact ⟨by simp, hall,
    mapear_mantem_ultima_ocorrencia ⟨"VB", [((1:ℝ), (0:ℝ)), (31, 0)]⟩
      ⟨"VA", [((6:ℝ), (0:ℝ)), (21, 0)]⟩ (by simp) hall⟩

/-! Claim C6: the arc-length round trip. -/

theorem proj_escalar_sobre (s e : ℝ × ℝ) (t : ℝ) (h : dist2d s e ≠ 0) :
    proj_escalar (ponto_sobre_segmento s e t) s e = t := by
  have hsq : dist2d s e ^ 2 = (e.1 - s.1) ^ 2 + (e.2 - s.2) ^ 2 := by
    unfold dist2d
    rw [Real.sq_sqrt (by positivity)]
  have hA : (e.1 - s.1) ^ 2 + (e.2 - s.2) ^ 2 ≠ 0 := by
    intro h0
    apply h
    unfold dist2d
    rw [h0, Real.sqrt_zero]
  unfold proj_escalar ponto_sobre_segmento
  rw [hsq]
  field_simp
  ring

theorem proj_clamp_sobre (s e : ℝ × ℝ) (t : ℝ) (h : dist2d s e ≠ 0)
    (ht0 : 0 ≤ t) (ht1 : t ≤ 1) :
    proj_clamp (ponto_sobre_segmento s e t) s e = t := by
  rw [proj_clamp, proj_escalar_sobre s e t h, min_eq_right ht1,
    max_eq_right ht0]

theorem dist_perp_sobre (s e : ℝ × ℝ) (t : ℝ) (h : dist2d s e ≠ 0)
    (ht0 : 0 ≤ t) (ht1 : t ≤ 1) :
    dist_perp (ponto_sobre_segmento s e t) s e = 0 := by
  rw [dist_perp, ponto_proj, proj_clamp_sobre s e t h ht0 ht1]
  rw [show ponto_sobre_segmento s e t =
    (s.1 + t * (e.1 - s.1), s.2 + t * (e.2 - s.2)) from rfl, dist2d_self]

theorem melhor_xi_aux_zero_absorve (p : ℝ × ℝ) :
    ∀ (rest : List (ℝ × ℝ)) (prev : ℝ × ℝ) (xiBase v : ℝ),
    melhor_xi_aux p prev rest xiBase (some (0, v)) = some (0, v) := by
  intro rest
  induction rest with
  | nil => intro prev xiBase v; rfl
  | cons c rest2 ih =>
    intro prev xiBase v
    by_cases hdeg : dist2d prev c < 0.01
    · rw [melhor_xi_aux_cons_deg _ _ _ _ _ _ hdeg]
      exact ih c _ v
    · rw [melhor_xi_aux_cons _ _ _ _ _ _ hdeg,
        atualiza_melhor_ge _ _ _ _ (not_lt.mpr (dist_perp_nonneg p prev c))]
      exact ih c _ v

theorem atualiza_melhor_pos (d xi : ℝ) (best : Option (ℝ × ℝ)) (hd : 0 < d)
    (hbest : ∀ a v, best = some (a, v) → 0 < a) :
    ∀ a v, atualiza_melhor d xi best = some (a, v) → 0 < a := by
  intro a v h
  cases best with
  | none =>
      rw [atualiza_melhor_none] at h
      obtain ⟨ha, _⟩ := Prod.mk.injEq .. ▸ Option.some_inj.mp h
      rw [← ha]
      exact hd
  | some bv =>
      rcases bv with ⟨bd, bxi⟩
      by_cases hlt : d < bd
      · rw [atualiza_melhor_lt _ _ _ _ hlt] at h
        obtain ⟨ha, _⟩ := Prod.mk.injEq .. ▸ Option.some_inj.mp h
        rw [← ha]
        exact hd
      · rw [atualiza_melhor_ge _ _ _ _ hlt] at h
        obtain ⟨ha, _⟩ := Prod.mk.injEq .. ▸ Option.some_inj.mp h
        rw [← ha]
        exact hbest bd bxi rfl

theorem melhor_xi_aux_roundtrip (p e : ℝ × ℝ) (l2 : List (ℝ × ℝ)) (t : ℝ)
    (ht0 : 0 ≤ t) (ht1 : t ≤ 1) :
    ∀ (l1 : List (ℝ × ℝ)) (prev : ℝ × ℝ) (xiBase : ℝ)
      (best : Option (ℝ × ℝ)),
    (∀ d v, best = some (d, v) → 0 < d) →
    segmentos_anteriores_ok p prev l1 →
    0.01 ≤ dist2d (l1.getLastD prev) e →
    p = ponto_sobre_segmento (l1.getLastD prev) e t →
    melhor_xi_aux p prev (l1 ++ e :: l2) xiBase best =
      some (0, xiBase + comprimento_cadeia prev l1 +
        t * dist2d (l1.getLastD prev) e) := by
  intro l1
  induction l1 with
  | nil =>
    intro prev xiBase best hbest _ hlen hp
    have hne : dist2d prev e ≠ 0 := by
      intro h0
      rw [show (([] : List (ℝ × ℝ)).getLastD prev) = prev from rfl] at hlen
      rw [h0] at hlen
      norm_num at hlen
    have hlen' : 0.01 ≤ dist2d prev e := hlen
    have hp' : p = ponto_sobre_segmento prev e t := hp
    have hd0 : dist_perp p prev e = 0 := by
      rw [hp']
      exact dist_perp_sobre prev e t hne ht0 ht1
    have hct : proj_clamp p prev e = t := by
      rw [hp']
      exact proj_clamp_sobre prev e t hne ht0 ht1
    show melhor_xi_aux p prev (e :: l2) xiBase best = _
    rw [melhor_xi_aux_cons _ _ _ _ _ _ (not_lt.mpr hlen'), hd0, hct]
    cases best with
    | none =>
        rw [atualiza_melhor_none, melhor_xi_aux_zero_absorve]
        rw [show comprimento_cadeia prev ([] : List (ℝ × ℝ)) = 0 from rfl,
          add_zero]
        rfl
    | some bv =>
        rcases bv with ⟨bd, bxi⟩
        have hbd : 0 < bd := hbest bd bxi rfl
        rw [atualiza_melhor_lt _ _ _ _ hbd, melhor_xi_aux_zero_absorve]
        rw [show comprimento_cadeia prev ([] : List (ℝ × ℝ)) = 0 from rfl,
          add_zero]
        rfl
  | cons c l1' ih =>
    intro prev xiBase best hbest hpre hlen hp
    have hg : ((c :: l1').getLastD prev) = l1'.getLastD c := by
      rw [List.getLastD_cons]
    rw [hg] at hlen hp
    have hchain : comprimento_cadeia prev (c :: l1') =
        dist2d prev c + comprimento_cadeia c l1' := rfl
    show melhor_xi_aux p prev (c :: (l1' ++ e :: l2)) xiBase best = _
    by_cases hdeg : dist2d prev c < 0.01
    · rw [melhor_xi_aux_cons_deg _ _ _ _ _ _ hdeg,
        ih c (xiBase + dist2d prev c) best hbest hpre.2 hlen hp,
        hg, hchain]
      rw [add_assoc xiBase]
    · have hpos : 0 < dist_perp p prev c := by
        rcases hpre.1 with h | h
        · exact absurd h hdeg
        · exact h
      rw [melhor_xi_aux_cons _ _ _ _ _ _ hdeg,
        ih c (xiBase + dist2d prev c) _
          (atualiza_melhor_pos _ _ best hpos hbest) hpre.2 hlen hp,
        hg, hchain]
      rw [add_assoc xiBase]

/-- C6 (amended): the round trip holds for every point CONSTRUCTED on a
non-degenerate segment of the polyline, PROVIDED no earlier segment of
the polyline passes through the point (each earlier segment is degenerate
or at strictly positive perpendicular distance): the resolver then
returns exactly the segment's starting cumulative length plus the
parameter fraction times the segment length - the point's arc-length
position.  (The proviso is forced: on a self-overlapping polyline the
first zero-distance segment wins, see the counterexample.) -/
theorem resolucao_xi_roundtrip (c0 e : ℝ × ℝ) (l1 l2 : List (ℝ × ℝ))
    (t : ℝ) (ht0 : 0 ≤ t) (ht1 : t ≤ 1)
    (hlen : 0.01 ≤ dist2d (l1.getLastD c0) e)
    (hpre : segmentos_anteriores_ok
      (ponto_sobre_segmento (l1.getLastD c0) e t) c0 l1) :
    melhor_xi (c0 :: (l1 ++ e :: l2))
        (ponto_sobre_segmento (l1.getLastD c0) e t) =
      some (0, comprimento_cadeia c0 l1 +
        t * dist2d (l1.getLastD c0) e) ∧
    ∀ nome : String,
      (calc_apoio_xi (c0 :: (l1 ++ e :: l2))
        ⟨nome, some (ponto_sobre_segmento (l1.getLastD c0) e t).1,
          some (ponto_sobre_segmento (l1.getLastD c0) e t).2⟩).xi_acumulado =
      some (comprimento_cadeia c0 l1 + t * dist2d (l1.getLastD c0) e) := by
  have hmain : melhor_xi (c0 :: (l1 ++ e :: l2))
      (ponto_sobre_segmento (l1.getLastD c0) e t) =
      some (0, comprimento_cadeia c0 l1 +
        t * dist2d (l1.getLastD c0) e) := by
    show melhor_xi_aux _ c0 (l1 ++ e :: l2) 0 none = _
    rw [melhor_xi_aux_roundtrip
      (ponto_sobre_segmento (l1.getLastD c0) e t) e l2 t ht0 ht1 l1 c0 0
      none (by intro d v h; cases h) hpre hlen rfl, zero_add]
  refine ⟨hmain, ?_⟩
  intro nome
  show some (((melhor_xi (c0 :: (l1 ++ e :: l2))
    ((ponto_sobre_segmento (l1.getLastD c0) e t).1,
      (ponto_sobre_segmento (l1.getLastD c0) e t).2)).map Prod.snd).getD 0) =
    _
  rw [show ((ponto_sobre_segmento (l1.getLastD c0) e t).1,
    (ponto_sobre_segmento (l1.getLastD c0) e t).2) =
    ponto_sobre_segmento (l1.getLastD c0) e t from rfl, hmain]
  rfl

/-- Witness for C6 (amended) on the single-segment beam `[(1,0), (11,0)]`
at the midpoint (arc position 5). -/
theorem resolucao_xi_roundtrip_witness :
    (0 ≤ (1:ℝ) / 2) ∧ ((1:ℝ) / 2 ≤ 1) ∧
    (0.01 ≤ dist2d (([] : List (ℝ × ℝ)).getLastD ((1:ℝ), (0:ℝ)))
      ((11:ℝ), (0:ℝ))) ∧
    segmentos_anteriores_ok
      (ponto_sobre_segmento (([] : List (ℝ × ℝ)).getLastD ((1:ℝ), (0:ℝ)))
        ((11:ℝ), (0:ℝ)) (1 / 2)) ((1:ℝ), (0:ℝ)) [] ∧
    (melhor_xi (((1:ℝ), (0:ℝ)) :: ([] ++ ((11:ℝ), (0:ℝ)) :: []))
        (ponto_sobre_segmento (([] : List (ℝ × ℝ)).getLastD ((1:ℝ), (0:ℝ)))
          ((11:ℝ), (0:ℝ)) (1 / 2)) =
      some (0, comprimento_cadeia ((1:ℝ), (0:ℝ)) [] +
        (1 / 2) * dist2d (([] : List (ℝ × ℝ)).getLastD ((1:ℝ), (0:ℝ)))
          ((11:ℝ), (0:ℝ))) ∧
    ∀ nome : String,
      (calc_apoio_xi (((1:ℝ), (0:ℝ)) :: ([] ++ ((11:ℝ), (0:ℝ)) :: []))
        ⟨nome, some (ponto_sobre_segmento
            (([] : List (ℝ × ℝ)).getLastD ((1:ℝ), (0:ℝ)))
            ((11:ℝ), (0:ℝ)) (1 / 2)).1,
          some (ponto_sobre_segmento
            (([] : List (ℝ × ℝ)).getLastD ((1:ℝ), (0:ℝ)))
            ((11:ℝ), (0:ℝ)) (1 / 2)).2⟩).xi_acumulado =
      some (comprimento_cadeia ((1:ℝ), (0:ℝ)) [] +
        (1 / 2) * dist2d (([] : List (ℝ × ℝ)).getLastD ((1:ℝ), (0:ℝ)))
          ((11:ℝ), (0:ℝ)))) :=
  ⟨by norm_num, by norm_num,
    by
      rw [show (([] : List (ℝ × ℝ)).getLastD ((1:ℝ), (0:ℝ))) =
        ((1:ℝ), (0:ℝ)) from rfl, dist2d_horiz]
      norm_num,
    trivial,
    resolucao_xi_roundtrip ((1:ℝ), (0:ℝ)) ((11:ℝ), (0:ℝ)) [] [] (1 / 2)
      (by norm_num) (by norm_num)
      (by
        rw [show (([] : List (ℝ × ℝ)).getLastD ((1:ℝ), (0:ℝ))) =
          ((1:ℝ), (0:ℝ)) from rfl, dist2d_horiz]
        norm_num)
      trivial⟩

/-- C6 counterexample: on the self-overlapping polyline
`[(1,0), (11,0), (1,0)]` (total length 20) the point `(6,0)` constructed
at arc-length position `15` (midpoint of the SECOND segment) resolves to
xi `5`, not `15`: the first segment also passes through the point at zero
perpendicular distance and wins, so the round trip of the claim fails. -/
theorem resolucao_xi_roundtrip_ce :
    ponto_sobre_segmento ((11:ℝ), (0:ℝ)) ((1:ℝ), (0:ℝ)) (1 / 2) =
      ((6:ℝ), (0:ℝ)) ∧
    dist2d ((1:ℝ), (0:ℝ)) ((11:ℝ), (0:ℝ)) +
      (1 / 2) * dist2d ((11:ℝ), (0:ℝ)) ((1:ℝ), (0:ℝ)) = 15 ∧
    melhor_xi [((1:ℝ), (0:ℝ)), (11, 0), (1, 0)] ((6:ℝ), (0:ℝ)) =
      some (0, 5) ∧
    (5:ℝ) ≠ 15 := by
  have hd1 : dist2d ((1:ℝ), (0:ℝ)) ((11:ℝ), (0:ℝ)) = 10 := by
    rw [dist2d_horiz]
    norm_num
  have hd2 : dist2d ((11:ℝ), (0:ℝ)) ((1:ℝ), (0:ℝ)) = 10 := by
    rw [dist2d_horiz, abs_of_nonpos (by norm_num)]
    norm_num
  have hpe1 : proj_escalar ((6:ℝ), (0:ℝ)) ((1:ℝ), (0:ℝ)) ((11:ℝ), (0:ℝ)) =
      1 / 2 := by
    rw [proj_escalar_horiz _ _ _ _ _ (by norm_num)]
    norm_num
  have hcl1 : proj_clamp ((6:ℝ), (0:ℝ)) ((1:ℝ), (0:ℝ)) ((11:ℝ), (0:ℝ)) =
      1 / 2 := by
    rw [proj_clamp, hpe1]
    norm_num
  have hpp1 : ponto_proj ((6:ℝ), (0:ℝ)) ((1:ℝ), (0:ℝ)) ((11:ℝ), (0:ℝ)) =
      ((6:ℝ), (0:ℝ)) := by
    rw [ponto_proj, hcl1]
    norm_num
  have hdp1 : dist_perp ((6:ℝ), (0:ℝ)) ((1:ℝ), (0:ℝ)) ((11:ℝ), (0:ℝ)) =
      0 := by
    rw [dist_perp, hpp1, dist2d_self]
  have hpe2 : proj_escalar ((6:ℝ), (0:ℝ)) ((11:ℝ), (0:ℝ)) ((1:ℝ), (0:ℝ)) =
      1 / 2 := by
    rw [proj_escalar_horiz _ _ _ _ _ (by norm_num)]
    norm_num
  have hcl2 : proj_clamp ((6:ℝ), (0:ℝ)) ((11:ℝ), (0:ℝ)) ((1:ℝ), (0:ℝ)) =
      1 / 2 := by
    rw [proj_clamp, hpe2]
    norm_num
  have hpp2 : ponto_proj ((6:ℝ), (0:ℝ)) ((11:ℝ), (0:ℝ)) ((1:ℝ), (0:ℝ)) =
      ((6:ℝ), (0:ℝ)) := by
    rw [ponto_proj, hcl2]
    norm_num
  have hdp2 : dist_perp ((6:ℝ), (0:ℝ)) ((11:ℝ), (0:ℝ)) ((1:ℝ), (0:ℝ)) =
      0 := by
    rw [dist_perp, hpp2, dist2d_self]
  refine ⟨by rw [ponto_sobre_segmento]; norm_num,
    by rw [hd1, hd2]; norm_num, ?_, by norm_num⟩
  show melhor_xi_aux ((6:ℝ), (0:ℝ)) (1, 0) [(11, 0), (1, 0)] 0 none =
    some (0, 5)
  rw [melhor_xi_aux_cons _ _ _ _ _ _ (by rw [hd1]; norm_num),
    atualiza_melhor_none,
    melhor_xi_aux_cons _ _ _ _ _ _ (by rw [hd2]; norm_num),
    melhor_xi_aux_nil, hdp1, hdp2, hcl1, hd1]
  rw [atualiza_melhor_ge _ _ _ _ (by norm_num)]
  norm_num

end ConcretoArmado
